import Mathlib

/-!
Shallow embedding of the seloger-api job orchestrator (src/sel.py and
src/seldeep.py).

The repository drives the lifecycle of a remote scraping job: create a
"squid", configure it, optionally upload a task file and poll the upload,
start a run, poll run progress, poll export readiness, fetch a download URL
and download the result.  Remote HTTP responses are modelled by small
structures holding exactly the fields the code reads (with `Option` for
fields read via `dict.get`, mirroring Python truthiness where the code
tests them).  `sys.exit(message)` is modelled as a fatal outcome carrying
the message; in Python it terminates the process with exit status 1.
Each polling loop is translated with the same counters the source uses
(`elapsed`, `max_wait`, `interval`); the unbounded run-progress loop takes
explicit fuel, with fuel exhaustion modelling "still polling".
-/

namespace Seloger

/-- Python truthiness of an optional string: `None` and `""` are falsy.
Used wherever the source tests `if not x:` on a string field obtained from
a JSON body or from the CLI. -/
def strFalsy : Option String → Bool
  | none => true
  | some s => s == ""

/-- Python truthiness of an optional string, positive form. -/
def strTruthy (o : Option String) : Bool := !strFalsy o

/-- ASCII uppercasing of one character, the effect of Python `str.upper`
on the ASCII strings compared here. -/
def charUpper (c : Char) : Char :=
  if 'a' ≤ c ∧ c ≤ 'z' then Char.ofNat (c.toNat - 32) else c

/-- ASCII lowercasing of one character, the effect of Python `str.lower`
on the ASCII strings compared here. -/
def charLower (c : Char) : Char :=
  if 'A' ≤ c ∧ c ≤ 'Z' then Char.ofNat (c.toNat + 32) else c

/-- Python `str.upper` (ASCII fragment). -/
def strUpper (s : String) : String := String.mk (s.data.map charUpper)

/-- Python `str.lower` (ASCII fragment). -/
def strLower (s : String) : String := String.mk (s.data.map charLower)

/-- The extension part of `os.path.splitext` (posixpath): the suffix of the
last path component starting at its last dot, provided some character of the
component strictly before that dot is not a dot (so a dotfile such as ".csv"
has no extension).  Faithful model of the library function the source calls. -/
def splitextExt (p : String) : String :=
  let b := (p.data.reverse.takeWhile (fun c => c ≠ '/')).reverse
  let stem := b.dropWhile (fun c => c = '.')
  if stem.any (fun c => c = '.') then
    String.mk ('.' :: (b.reverse.takeWhile (fun c => c ≠ '.')).reverse)
  else ""

/-- Model of `SelogerAPI.get_mime_type` (sel.py lines 26-34) and
`SelogerAPI._get_mime_type` (seldeep.py lines 38-46), identical logic in
both files: lowercase the `os.path.splitext` extension; ".csv" maps to
"text/csv", ".tsv" to "text/tab-separated-values", anything else is
`sys.exit` (modelled as `none`). -/
def get_mime_type (file_path : String) : Option String :=
  let ext := strLower (splitextExt file_path)
  if ext = ".csv" then some "text/csv"
  else if ext = ".tsv" then some "text/tab-separated-values"
  else none

/-- Response of the create-squid endpoint as read by the code:
`resp.ok` and `resp.json().get("id")`. -/
structure CreateResp where
  ok : Bool
  id : Option String

/-- Response of the tasks-upload endpoint: `resp.ok` and
`resp.json().get("task_id")`. -/
structure UploadResp where
  ok : Bool
  task_id : Option String

/-- One response of the upload-status endpoint: `resp.ok` and
`resp.json().get("state", "")` (`none` models a body with no state field). -/
structure UploadStatusResp where
  ok : Bool
  state : Option String

/-- Response of the run-creation endpoint: `resp.ok` and
`resp.json().get("id")`. -/
structure RunResp where
  ok : Bool
  id : Option String

/-- One response of the run-stats endpoint; the code reads
`percent_done` / `results_done` / `results_total` (printed only) and tests
the truthiness of `data.get("is_done")` (`none` models a missing flag). -/
structure StatsResp where
  ok : Bool
  percent_done : String
  results_done : Nat
  results_total : Nat
  is_done : Option Bool

/-- One response of the run-details endpoint; the code tests the truthiness
of `data.get("export_done", False)` (`none` models a missing flag). -/
structure DetailsResp where
  ok : Bool
  export_done : Option Bool

/-- Response of the run-download endpoint: `resp.ok` and
`resp.json().get("s3")`. -/
structure DownloadResp where
  ok : Bool
  s3 : Option String

/-- The environment of one execution: every remote response the pipeline
may consume, plus the outcome of opening the local task file.  Polled
endpoints are infinite response sequences indexed by poll number. -/
structure Env where
  create : CreateResp
  updateOk : Bool
  fileOpenOk : Bool
  upload : UploadResp
  uploadStates : Nat → UploadStatusResp
  deleteOk : Bool
  run : RunResp
  stats : Nat → StatsResp
  details : Nat → DetailsResp
  download : DownloadResp
  s3FetchOk : Bool

/-- Caller-supplied CLI configuration (sel.py parse_args / seldeep.py
parse_args): concurrency, annonce-details flag, optional task-file path,
max pages. -/
structure Config where
  concurrency : Int
  annonce_details : Bool
  tasks_file : Option String
  max_pages : Int

/-- The nested `fill_results_details` object of the update payload. -/
structure FillResultsDetails where
  annonce_details : Bool
deriving DecidableEq

/-- The nested `params` object of the update payload. -/
structure SquidParams where
  max_pages : Int
  fill_results_details : FillResultsDetails
deriving DecidableEq

/-- The JSON payload `update_squid` posts to the update-job endpoint
(sel.py lines 50-61, seldeep.py lines 68-81; identical in both files). -/
structure UpdatePayload where
  concurrency : Int
  export_unique_results : Bool
  no_line_breaks : Bool
  to_complete : Bool
  params : SquidParams
  accounts : Option Unit
  run_notify : String
deriving DecidableEq

/-- The payload `update_squid` builds from the instance fields. -/
def update_squid_payload (concurrency max_pages : Int) (annonce_details : Bool) :
    UpdatePayload :=
  { concurrency := concurrency
    export_unique_results := true
    no_line_breaks := true
    to_complete := false
    params :=
      { max_pages := max_pages
        fill_results_details := { annonce_details := annonce_details } }
    accounts := none
    run_notify := "on_success" }

/-- One remote call performed by the pipeline, in the order it is issued;
polled endpoints contribute one entry per poll. -/
inductive Call where
  | createSquid
  | updateSquid (payload : UpdatePayload)
  | uploadTasks
  | pollUploadStatus
  | deleteSquid
  | startRun
  | pollRunStats
  | pollRunDetails
  | getDownloadUrl
  | downloadS3
deriving DecidableEq

/-- How the process terminates.  `sys.exit(message)` prints the message and
exits with status 1 (`exitMsg`); `sys.exit(1)` is `exitCode 1`; falling off
the end of `main` is `finished` (status 0); an uncaught KeyboardInterrupt
prints a traceback and exits non-zero (`uncaughtInterrupt`). -/
inductive Outcome where
  | finished
  | exitMsg (msg : String)
  | exitCode (code : Nat)
  | uncaughtInterrupt
deriving DecidableEq

/-- The process exit status of an outcome.  CPython exits with status 1
for `sys.exit` on a non-integer argument and for any uncaught exception. -/
def exitCodeOf : Outcome → Nat
  | .finished => 0
  | .exitMsg _ => 1
  | .exitCode c => c
  | .uncaughtInterrupt => 1

/-- Result of running the orchestration: the process exited, or the
unbounded run-progress loop is still polling when the fuel runs out. -/
inductive MainResult where
  | exited (o : Outcome)
  | running
deriving DecidableEq

/-- The behavioral class of a result, abstracting the exact diagnostic
text (the two implementations word their messages differently; the text is
presentation, not behavior). -/
inductive OutcomeKind where
  | finishedK
  | fatalMsgK
  | codeK (c : Nat)
  | uncaughtK
  | runningK
deriving DecidableEq

/-- Behavioral class of a `MainResult`. -/
def MainResult.kind : MainResult → OutcomeKind
  | .exited .finished => .finishedK
  | .exited (.exitMsg _) => .fatalMsgK
  | .exited (.exitCode c) => .codeK c
  | .exited .uncaughtInterrupt => .uncaughtK
  | .running => .runningK

/-- Result of one pipeline step: the value it returns plus the remote calls
it performed, or a fatal `sys.exit` with the calls performed so far. -/
inductive StepResult (α : Type) where
  | ok (val : α) (calls : List Call)
  | fatal (msg : String) (calls : List Call)

/-- The calls a step performed, in either outcome. -/
def StepResult.calls {α : Type} : StepResult α → List Call
  | .ok _ cs => cs
  | .fatal _ cs => cs

/-- Result of the unbounded run-progress step: success, fatal, or still
polling when the fuel ran out. -/
inductive LoopStepResult where
  | ok (calls : List Call)
  | fatal (msg : String) (calls : List Call)
  | running (calls : List Call)

/-- The calls the run-progress step performed, in any outcome. -/
def LoopStepResult.calls : LoopStepResult → List Call
  | .ok cs => cs
  | .fatal _ cs => cs
  | .running cs => cs

/-- Result of the bounded upload-status polling loop.  `polls` counts the
GET requests performed; `waited` is the total time slept (time-units). -/
inductive UploadPollResult where
  | success (polls waited : Nat)
  | httpError (polls : Nat)
  | timeout (polls waited : Nat)
deriving DecidableEq

/-- Whether the upload-status loop returned successfully. -/
def UploadPollResult.isSuccess : UploadPollResult → Bool
  | .success _ _ => true
  | _ => false

/-- Number of GET requests the upload-status loop performed. -/
def UploadPollResult.polls : UploadPollResult → Nat
  | .success n _ => n
  | .httpError n => n
  | .timeout n _ => n

/-- The success test of the upload-status loop:
`status_info.get("state", "").upper() == "SUCCESS"`. -/
def isSuccessState (r : UploadStatusResp) : Bool :=
  strUpper (r.state.getD "") == "SUCCESS"

/-- The upload-status polling loop (sel.py lines 91-106, seldeep.py lines
127-146): `max_wait = 60`, `interval = 5`, `elapsed` starts at 0; while
`elapsed < max_wait` poll, exit fatally on a non-2xx response, return on a
SUCCESS state, otherwise sleep `interval` and add it to `elapsed`; falling
out of the loop is a fatal timeout.  `i` is the index of the next poll. -/
def pollUploadLoop (states : Nat → UploadStatusResp) (i elapsed : Nat) :
    UploadPollResult :=
  if h : elapsed < 60 then
    if !(states i).ok then .httpError (i + 1)
    else if isSuccessState (states i) then .success (i + 1) elapsed
    else pollUploadLoop states (i + 1) (elapsed + 5)
  else .timeout i elapsed
termination_by 60 - elapsed
decreasing_by omega

/-- Result of the bounded export-status polling loop; fields as in
`UploadPollResult`. -/
inductive ExportPollResult where
  | success (polls waited : Nat)
  | httpError (polls : Nat)
  | timeout (polls waited : Nat)
deriving DecidableEq

/-- The export-status polling loop (sel.py lines 149-170, seldeep.py lines
213-237): `max_wait = 120`, `interval = 5`; exits successfully when the
truthiness of `data.get("export_done", False)` holds. -/
def pollExportLoop (details : Nat → DetailsResp) (i elapsed : Nat) :
    ExportPollResult :=
  if h : elapsed < 120 then
    if !(details i).ok then .httpError (i + 1)
    else if (details i).export_done.getD false then .success (i + 1) elapsed
    else pollExportLoop details (i + 1) (elapsed + 5)
  else .timeout i elapsed
termination_by 120 - elapsed
decreasing_by omega

/-- Result of the unbounded run-progress loop under explicit fuel.
`running n` means the loop is still going after `n` polls. -/
inductive RunPollResult where
  | done (polls waited : Nat)
  | httpError (polls : Nat)
  | running (polls : Nat)
deriving DecidableEq

/-- The run-progress polling loop (sel.py lines 131-144, seldeep.py lines
187-203): `while True`, poll stats, exit fatally on a non-2xx response,
break when the truthiness of `data.get("is_done")` holds, otherwise sleep
2 time-units.  The source loop has no bound; the `fuel` argument only
truncates the model, `running` meaning the loop would continue. -/
def pollRunLoop (stats : Nat → StatsResp) : Nat → Nat → RunPollResult
  | 0, i => .running i
  | fuel + 1, i =>
    if !(stats i).ok then .httpError (i + 1)
    else if (stats i).is_done.getD false then .done (i + 1) (2 * i)
    else pollRunLoop stats fuel (i + 1)

/-- Model of `SelogerAPI.create_squid` (sel.py lines 36-46): POST create, fatal on a
non-2xx response; read `id`, fatal if falsy; return the squid id. -/
def create_squid (env : Env) : StepResult String :=
  if !env.create.ok then .fatal "Error creating squid" [.createSquid]
  else if strFalsy env.create.id then .fatal "Squid ID not found!" [.createSquid]
  else .ok (env.create.id.getD "") [.createSquid]

/-- Model of `SelogerAPI.update_squid` (sel.py lines 48-66): POST the configuration
payload, fatal on a non-2xx response. -/
def update_squid (env : Env) (cfg : Config) : StepResult Unit :=
  if !env.updateOk then
    .fatal "Error updating squid"
      [.updateSquid (update_squid_payload cfg.concurrency cfg.max_pages cfg.annonce_details)]
  else
    .ok ()
      [.updateSquid (update_squid_payload cfg.concurrency cfg.max_pages cfg.annonce_details)]

/-- Model of `SelogerAPI.upload_tasks_file` (sel.py lines 68-86): derive the MIME
type (fatal before any network call on a bad extension), open the file and
POST it (a raised exception is fatal before the response is read), fatal on
a non-2xx response or a falsy `task_id`; return the upload-task id. -/
def upload_tasks_file (env : Env) (path : String) : StepResult String :=
  match get_mime_type path with
  | none => .fatal "Invalid file extension. Valid values are: csv or tsv." []
  | some _ =>
    if !env.fileOpenOk then .fatal "Error opening file" []
    else if !env.upload.ok then .fatal "Error uploading tasks file" [.uploadTasks]
    else if strFalsy env.upload.task_id then
      .fatal "Task upload ID not found in response!" [.uploadTasks]
    else .ok (env.upload.task_id.getD "") [.uploadTasks]

/-- Model of `SelogerAPI.poll_task_upload_status` (sel.py lines 88-106) as a step:
run the bounded loop and translate its result. -/
def poll_task_upload_status (env : Env) : StepResult Unit :=
  match pollUploadLoop env.uploadStates 0 0 with
  | .success n _ => .ok () (List.replicate n .pollUploadStatus)
  | .httpError n => .fatal "Error checking upload status" (List.replicate n .pollUploadStatus)
  | .timeout n _ =>
    .fatal "Tasks file upload did not complete within expected time."
      (List.replicate n .pollUploadStatus)

/-- Model of `SelogerAPI.delete_squid` (sel.py lines 108-114): DELETE the squid,
fatal on a non-2xx response. -/
def delete_squid (env : Env) : StepResult Unit :=
  if !env.deleteOk then .fatal "Error deleting squid" [.deleteSquid]
  else .ok () [.deleteSquid]

/-- Model of `SelogerAPI.start_run` (sel.py lines 116-126): POST run creation, fatal
on a non-2xx response or a falsy `id`; return the run id. -/
def start_run (env : Env) : StepResult String :=
  if !env.run.ok then .fatal "Error starting run" [.startRun]
  else if strFalsy env.run.id then .fatal "Run ID not found!" [.startRun]
  else .ok (env.run.id.getD "") [.startRun]

/-- Model of `SelogerAPI.poll_run_progress` (sel.py lines 128-144) as a step:
run the unbounded loop under fuel and translate its result. -/
def poll_run_progress (env : Env) (fuel : Nat) : LoopStepResult :=
  match pollRunLoop env.stats fuel 0 with
  | .done n _ => .ok (List.replicate n .pollRunStats)
  | .httpError n => .fatal "Error retrieving run stats" (List.replicate n .pollRunStats)
  | .running n => .running (List.replicate n .pollRunStats)

/-- Model of `SelogerAPI.poll_export_status` (sel.py lines 146-170) as a step:
run the bounded loop and translate its result. -/
def poll_export_status (env : Env) : StepResult Unit :=
  match pollExportLoop env.details 0 0 with
  | .success n _ => .ok () (List.replicate n .pollRunDetails)
  | .httpError n => .fatal "Error retrieving run details" (List.replicate n .pollRunDetails)
  | .timeout n _ =>
    .fatal "Export did not complete within expected time."
      (List.replicate n .pollRunDetails)

/-- Model of `SelogerAPI.get_s3_url` (sel.py lines 172-183): GET the download
descriptor, fatal on a non-2xx response or a falsy `s3` field. -/
def get_s3_url (env : Env) : StepResult String :=
  if !env.download.ok then .fatal "Error requesting download URL" [.getDownloadUrl]
  else if strFalsy env.download.s3 then .fatal "S3 URL not found!" [.getDownloadUrl]
  else .ok (env.download.s3.getD "") [.getDownloadUrl]

/-- Model of `SelogerAPI.download_csv` (sel.py lines 185-193): GET the S3 URL, fatal
on a non-2xx response, write run_results.csv. -/
def download_csv (env : Env) : StepResult Unit :=
  if !env.s3FetchOk then .fatal "Error downloading CSV file" [.downloadS3]
  else .ok () [.downloadS3]

/-- sel.py main, steps 7-10 (poll_export_status, get_s3_url, download_csv):
the tail of the pipeline after the run-progress loop completed. -/
def selFromExport (env : Env) : List Call × MainResult :=
  match poll_export_status env with
  | .fatal m cs => (cs, .exited (.exitMsg m))
  | .ok _ cs =>
    match get_s3_url env with
    | .fatal m cs2 => (cs ++ cs2, .exited (.exitMsg m))
    | .ok _ cs2 =>
      match download_csv env with
      | .fatal m cs3 => (cs ++ cs2 ++ cs3, .exited (.exitMsg m))
      | .ok _ cs3 => (cs ++ cs2 ++ cs3, .exited .finished)

/-- sel.py main from `start_run` on (lines 221-225). -/
def selFromRun (env : Env) (fuel : Nat) : List Call × MainResult :=
  match start_run env with
  | .fatal m cs => (cs, .exited (.exitMsg m))
  | .ok _ cs =>
    match poll_run_progress env fuel with
    | .fatal m cs2 => (cs ++ cs2, .exited (.exitMsg m))
    | .running cs2 => (cs ++ cs2, .running)
    | .ok cs2 =>
      let t := selFromExport env
      (cs ++ cs2 ++ t.1, t.2)

/-- sel.py main, the task-file branch (lines 216-217) and the rest of the
pipeline. -/
def selWithTasks (env : Env) (fuel : Nat) (path : String) : List Call × MainResult :=
  match upload_tasks_file env path with
  | .fatal m cs => (cs, .exited (.exitMsg m))
  | .ok _ cs =>
    match poll_task_upload_status env with
    | .fatal m cs2 => (cs ++ cs2, .exited (.exitMsg m))
    | .ok _ cs2 =>
      let t := selFromRun env fuel
      (cs ++ cs2 ++ t.1, t.2)

/-- sel.py main, the no-task-file branch (lines 218-220): delete the squid
and `sys.exit("No tasks file provided. Exiting.")`. -/
def selNoTasks (env : Env) : List Call × MainResult :=
  match delete_squid env with
  | .fatal m cs => (cs, .exited (.exitMsg m))
  | .ok _ cs => (cs, .exited (.exitMsg "No tasks file provided. Exiting."))

/-- sel.py `main` (lines 207-225): create, update, then branch on the
truthiness of `api.tasks_file`. -/
def selOrchestrate (env : Env) (cfg : Config) (fuel : Nat) : List Call × MainResult :=
  match create_squid env with
  | .fatal m cs => (cs, .exited (.exitMsg m))
  | .ok _ cs =>
    match update_squid env cfg with
    | .fatal m cs2 => (cs ++ cs2, .exited (.exitMsg m))
    | .ok _ cs2 =>
      if strTruthy cfg.tasks_file then
        let t := selWithTasks env fuel (cfg.tasks_file.getD "")
        (cs ++ cs2 ++ t.1, t.2)
      else
        let t := selNoTasks env
        (cs ++ cs2 ++ t.1, t.2)

/-- sel.py as a process: `main` has no handler for KeyboardInterrupt, so an
interrupt arriving after `n` completed remote calls (while the pipeline is
still executing) terminates the process with an uncaught exception. -/
def selMain (env : Env) (cfg : Config) (fuel : Nat) (interruptAfter : Option Nat) :
    List Call × MainResult :=
  let t := selOrchestrate env cfg fuel
  match interruptAfter with
  | none => t
  | some n =>
    if n < t.1.length then (t.1.take n, .exited .uncaughtInterrupt) else t

/-- seldeep.py `SelogerAPI.create_squid` (lines 48-63): same logic as
sel.py with different diagnostic text. -/
def seldeep_create_squid (env : Env) : StepResult String :=
  if !env.create.ok then .fatal "Error creating squid" [.createSquid]
  else if strFalsy env.create.id then
    .fatal "Squid ID not found in response!" [.createSquid]
  else .ok (env.create.id.getD "") [.createSquid]

/-- seldeep.py `SelogerAPI.update_squid` (lines 65-89): identical payload
and logic, different diagnostic text. -/
def seldeep_update_squid (env : Env) (cfg : Config) : StepResult Unit :=
  if !env.updateOk then
    .fatal "Error updating squid"
      [.updateSquid (update_squid_payload cfg.concurrency cfg.max_pages cfg.annonce_details)]
  else
    .ok ()
      [.updateSquid (update_squid_payload cfg.concurrency cfg.max_pages cfg.annonce_details)]

/-- seldeep.py `SelogerAPI.upload_tasks_file` (lines 91-120): an extra
leading guard exits when `tasks_file` is falsy; otherwise as sel.py with
different diagnostic text (the source interpolates the bad extension into
its message, dropped here). -/
def seldeep_upload_tasks_file (env : Env) (tasks_file : Option String) : StepResult String :=
  if strFalsy tasks_file then .fatal "No tasks file provided for upload" []
  else
    match get_mime_type (tasks_file.getD "") with
    | none => .fatal "Invalid file extension. Valid values: csv/tsv" []
    | some _ =>
      if !env.fileOpenOk then .fatal "File access error" []
      else if !env.upload.ok then .fatal "Upload failed" [.uploadTasks]
      else if strFalsy env.upload.task_id then
        .fatal "Missing task upload ID in response" [.uploadTasks]
      else .ok (env.upload.task_id.getD "") [.uploadTasks]

/-- seldeep.py `SelogerAPI._poll_task_upload_status` (lines 122-146):
identical loop counters and success test as sel.py (the source uppercases
the state before printing and comparing; the comparison is the same). -/
def seldeep_poll_task_upload_status (env : Env) : StepResult Unit :=
  match pollUploadLoop env.uploadStates 0 0 with
  | .success n _ => .ok () (List.replicate n .pollUploadStatus)
  | .httpError n => .fatal "Status check failed" (List.replicate n .pollUploadStatus)
  | .timeout n _ =>
    .fatal "Tasks processing exceeded maximum wait time"
      (List.replicate n .pollUploadStatus)

/-- seldeep.py `SelogerAPI.delete_squid` (lines 148-160): returns without
any request when `squid_id` is falsy; otherwise as sel.py. -/
def seldeep_delete_squid (env : Env) (squid_id : Option String) : StepResult Unit :=
  if strFalsy squid_id then .ok () []
  else if !env.deleteOk then .fatal "Deletion failed" [.deleteSquid]
  else .ok () [.deleteSquid]

/-- seldeep.py `SelogerAPI.start_run` (lines 162-177). -/
def seldeep_start_run (env : Env) : StepResult String :=
  if !env.run.ok then .fatal "Run initiation failed" [.startRun]
  else if strFalsy env.run.id then .fatal "Missing run ID in response" [.startRun]
  else .ok (env.run.id.getD "") [.startRun]

/-- seldeep.py `SelogerAPI._poll_run_progress` (lines 179-203): exits when
`run_id` is falsy, then the same unbounded loop as sel.py. -/
def seldeep_poll_run_progress (env : Env) (run_id : Option String) (fuel : Nat) :
    LoopStepResult :=
  if strFalsy run_id then .fatal "Missing run ID for progress check" []
  else
    match pollRunLoop env.stats fuel 0 with
    | .done n _ => .ok (List.replicate n .pollRunStats)
    | .httpError n => .fatal "Progress check failed" (List.replicate n .pollRunStats)
    | .running n => .running (List.replicate n .pollRunStats)

/-- seldeep.py `SelogerAPI._poll_export_status` (lines 205-237): exits when
`run_id` is falsy, then the same bounded loop as sel.py. -/
def seldeep_poll_export_status (env : Env) (run_id : Option String) : StepResult Unit :=
  if strFalsy run_id then .fatal "Missing run ID for export check" []
  else
    match pollExportLoop env.details 0 0 with
    | .success n _ => .ok () (List.replicate n .pollRunDetails)
    | .httpError n => .fatal "Export check failed" (List.replicate n .pollRunDetails)
    | .timeout n _ =>
      .fatal "Export verification timed out" (List.replicate n .pollRunDetails)

/-- seldeep.py `SelogerAPI.get_results_url` (lines 239-256): exits when
`run_id` is falsy, then as sel.py `get_s3_url`. -/
def seldeep_get_results_url (env : Env) (run_id : Option String) : StepResult String :=
  if strFalsy run_id then .fatal "Missing run ID for results URL" []
  else if !env.download.ok then .fatal "URL request failed" [.getDownloadUrl]
  else if strFalsy env.download.s3 then .fatal "Missing S3 URL in response" [.getDownloadUrl]
  else .ok (env.download.s3.getD "") [.getDownloadUrl]

/-- seldeep.py `SelogerAPI.download_results` (lines 258-270). -/
def seldeep_download_results (env : Env) : StepResult Unit :=
  if !env.s3FetchOk then .fatal "Download failed" [.downloadS3]
  else .ok () [.downloadS3]

/-- seldeep.py main, steps after the run-progress loop, threading the run
id into the guarded methods. -/
def seldeepFromExport (env : Env) (run_id : Option String) : List Call × MainResult :=
  match seldeep_poll_export_status env run_id with
  | .fatal m cs => (cs, .exited (.exitMsg m))
  | .ok _ cs =>
    match seldeep_get_results_url env run_id with
    | .fatal m cs2 => (cs ++ cs2, .exited (.exitMsg m))
    | .ok _ cs2 =>
      match seldeep_download_results env with
      | .fatal m cs3 => (cs ++ cs2 ++ cs3, .exited (.exitMsg m))
      | .ok _ cs3 => (cs ++ cs2 ++ cs3, .exited .finished)

/-- seldeep.py main from `start_run` on (lines 326-331); the run id stored
by `start_run` is threaded to the later guarded methods. -/
def seldeepFromRun (env : Env) (fuel : Nat) : List Call × MainResult :=
  match seldeep_start_run env with
  | .fatal m cs => (cs, .exited (.exitMsg m))
  | .ok rid cs =>
    match seldeep_poll_run_progress env (some rid) fuel with
    | .fatal m cs2 => (cs ++ cs2, .exited (.exitMsg m))
    | .running cs2 => (cs ++ cs2, .running)
    | .ok cs2 =>
      let t := seldeepFromExport env (some rid)
      (cs ++ cs2 ++ t.1, t.2)

/-- seldeep.py main, the task-file branch (lines 319-321) and the rest of
the pipeline. -/
def seldeepWithTasks (env : Env) (fuel : Nat) (tasks_file : Option String) :
    List Call × MainResult :=
  match seldeep_upload_tasks_file env tasks_file with
  | .fatal m cs => (cs, .exited (.exitMsg m))
  | .ok _ cs =>
    match seldeep_poll_task_upload_status env with
    | .fatal m cs2 => (cs ++ cs2, .exited (.exitMsg m))
    | .ok _ cs2 =>
      let t := seldeepFromRun env fuel
      (cs ++ cs2 ++ t.1, t.2)

/-- seldeep.py main, the no-task-file branch (lines 322-324). -/
def seldeepNoTasks (env : Env) (squid_id : Option String) : List Call × MainResult :=
  match seldeep_delete_squid env squid_id with
  | .fatal m cs => (cs, .exited (.exitMsg m))
  | .ok _ cs => (cs, .exited (.exitMsg "No tasks file provided - exiting"))

/-- seldeep.py `main` (lines 304-331), the body of the try block:
create, update, then branch on the truthiness of `api.tasks_file`. -/
def seldeepOrchestrate (env : Env) (cfg : Config) (fuel : Nat) : List Call × MainResult :=
  match seldeep_create_squid env with
  | .fatal m cs => (cs, .exited (.exitMsg m))
  | .ok sid cs =>
    match seldeep_update_squid env cfg with
    | .fatal m cs2 => (cs ++ cs2, .exited (.exitMsg m))
    | .ok _ cs2 =>
      if strTruthy cfg.tasks_file then
        let t := seldeepWithTasks env fuel cfg.tasks_file
        (cs ++ cs2 ++ t.1, t.2)
      else
        let t := seldeepNoTasks env (some sid)
        (cs ++ cs2 ++ t.1, t.2)

/-- seldeep.py as a process: `main` wraps the pipeline in a handler for
KeyboardInterrupt (lines 333-335) that prints a cancellation message and
calls `sys.exit(1)`, so an interrupt arriving after `n` completed remote
calls (while the pipeline is still executing) exits cleanly with status 1. -/
def seldeepMain (env : Env) (cfg : Config) (fuel : Nat) (interruptAfter : Option Nat) :
    List Call × MainResult :=
  let t := seldeepOrchestrate env cfg fuel
  match interruptAfter with
  | none => t
  | some n =>
    if n < t.1.length then (t.1.take n, .exited (.exitCode 1)) else t

/-- The polled state sequence PENDING, PENDING, SUCCESS (constant SUCCESS
afterwards; the loop never reads past the first SUCCESS). -/
def ppsStates : Nat → UploadStatusResp := fun i =>
  if i < 2 then { ok := true, state := some "PENDING" }
  else { ok := true, state := some "SUCCESS" }

/-- A 2xx upload-status response whose body has no `state` field, at every
poll. -/
def missingStateSeq : Nat → UploadStatusResp := fun _ =>
  { ok := true, state := none }

/-- A 2xx run-details response whose export flag is still false, at every
poll. -/
def notDoneDetails : Nat → DetailsResp := fun _ =>
  { ok := true, export_done := some false }

/-- A stats sequence that is not done for two polls and done from the
third on, with changing progress statistics. -/
def demoStats : Nat → StatsResp := fun i =>
  if i < 2 then
    { ok := true, percent_done := "50%", results_done := 1, results_total := 2
      is_done := some false }
  else
    { ok := true, percent_done := "100%", results_done := 2, results_total := 2
      is_done := some true }

/-- An environment in which every remote call succeeds at the first
attempt and every body is complete. -/
def envAllOk : Env :=
  { create := { ok := true, id := some "squid-1" }
    updateOk := true
    fileOpenOk := true
    upload := { ok := true, task_id := some "task-1" }
    uploadStates := fun _ => { ok := true, state := some "SUCCESS" }
    deleteOk := true
    run := { ok := true, id := some "run-1" }
    stats := fun _ =>
      { ok := true, percent_done := "100%", results_done := 5, results_total := 5
        is_done := some true }
    details := fun _ => { ok := true, export_done := some true }
    download := { ok := true, s3 := some "https-example-url" }
    s3FetchOk := true }

/-- An environment whose very first remote call (create squid) fails. -/
def envFailCreate : Env :=
  { envAllOk with create := { ok := false, id := none } }

/-- An environment whose create call returns 2xx but with no `id` field. -/
def envNoId : Env :=
  { envAllOk with create := { ok := true, id := none } }

/-- A 2xx upload-status response stuck in PENDING at every poll. -/
def pendingStates : Nat → UploadStatusResp := fun _ =>
  { ok := true, state := some "PENDING" }

/-- A configuration supplying a task file. -/
def cfgTasks : Config :=
  { concurrency := 3, annonce_details := true, tasks_file := some "search.csv"
    max_pages := 5 }

/-- A configuration supplying no task file. -/
def cfgNoTasks : Config :=
  { concurrency := 1, annonce_details := false, tasks_file := none, max_pages := 2 }

/-! ## Helper lemmas on the polling loops -/

/-- If no polled response is 2xx-failing or SUCCESS, the upload-status
loop runs to its ceiling: starting with `elapsed + 5 * m = 60` it performs
`m` more polls and times out with a total wait of 60 time-units. -/
theorem pollUploadLoop_never (states : Nat → UploadStatusResp)
    (h : ∀ k, (states k).ok = true ∧ isSuccessState (states k) = false) :
    ∀ m i elapsed, elapsed + 5 * m = 60 →
      pollUploadLoop states i elapsed = UploadPollResult.timeout (i + m) 60 := by
  intro m
  induction m with
  | zero =>
    intro i elapsed he
    have h60 : elapsed = 60 := by omega
    subst h60
    unfold pollUploadLoop
    simp
  | succ n ih =>
    intro i elapsed he
    have hlt : elapsed < 60 := by omega
    unfold pollUploadLoop
    rw [dif_pos hlt]
    simp only [(h i).1, (h i).2, Bool.not_true, Bool.false_eq_true, if_false]
    rw [ih (i + 1) (elapsed + 5) (by omega)]
    congr 1
    omega

/-- Counterpart of `pollUploadLoop_never` for the export-status loop with
its 120 time-unit ceiling. -/
theorem pollExportLoop_never (details : Nat → DetailsResp)
    (h : ∀ k, (details k).ok = true ∧ (details k).export_done.getD false = false) :
    ∀ m i elapsed, elapsed + 5 * m = 120 →
      pollExportLoop details i elapsed = ExportPollResult.timeout (i + m) 120 := by
  intro m
  induction m with
  | zero =>
    intro i elapsed he
    have h120 : elapsed = 120 := by omega
    subst h120
    unfold pollExportLoop
    simp
  | succ n ih =>
    intro i elapsed he
    have hlt : elapsed < 120 := by omega
    unfold pollExportLoop
    rw [dif_pos hlt]
    simp only [(h i).1, (h i).2, Bool.not_true, Bool.false_eq_true, if_false]
    rw [ih (i + 1) (elapsed + 5) (by omega)]
    congr 1
    omega

/-- With all responses 2xx, the upload-status loop returns successfully
exactly when some response within the remaining attempts has a SUCCESS
state. -/
theorem pollUploadLoop_success_iff (states : Nat → UploadStatusResp)
    (hok : ∀ k, (states k).ok = true) :
    ∀ m i elapsed, elapsed + 5 * m = 60 →
      ((pollUploadLoop states i elapsed).isSuccess = true ↔
        ∃ j, j < m ∧ isSuccessState (states (i + j)) = true) := by
  intro m
  induction m with
  | zero =>
    intro i elapsed he
    have h60 : elapsed = 60 := by omega
    subst h60
    unfold pollUploadLoop
    simp [UploadPollResult.isSuccess]
  | succ n ih =>
    intro i elapsed he
    have hlt : elapsed < 60 := by omega
    unfold pollUploadLoop
    rw [dif_pos hlt]
    simp only [hok i, Bool.not_true, Bool.false_eq_true, if_false]
    by_cases hs : isSuccessState (states i) = true
    · rw [if_pos hs]
      simp only [UploadPollResult.isSuccess, true_iff]
      exact ⟨0, by omega, by simpa using hs⟩
    · rw [if_neg hs]
      rw [ih (i + 1) (elapsed + 5) (by omega)]
      constructor
      · rintro ⟨j, hj, hjs⟩
        refine ⟨j + 1, by omega, ?_⟩
        have hadd : i + (j + 1) = i + 1 + j := by omega
        rw [hadd]
        exact hjs
      · rintro ⟨j, hj, hjs⟩
        cases j with
        | zero => exact absurd (by simpa using hjs) hs
        | succ j2 =>
          refine ⟨j2, by omega, ?_⟩
          have hadd : i + 1 + j2 = i + (j2 + 1) := by omega
          rw [hadd]
          exact hjs

/-- The run-progress loop depends only on the success flag and the
completion flag of each response, not on the progress statistics. -/
theorem pollRunLoop_congr (stats stats2 : Nat → StatsResp)
    (h : ∀ k, (stats k).ok = (stats2 k).ok ∧ (stats k).is_done = (stats2 k).is_done) :
    ∀ fuel i, pollRunLoop stats fuel i = pollRunLoop stats2 fuel i := by
  intro fuel
  induction fuel with
  | zero => intro i; rfl
  | succ n ih =>
    intro i
    unfold pollRunLoop
    rw [(h i).1, (h i).2, ih (i + 1)]

/-- If every response is 2xx and no completion flag is truthy, the
run-progress loop is still polling whatever the fuel. -/
theorem pollRunLoop_never (stats : Nat → StatsResp)
    (h : ∀ k, (stats k).ok = true ∧ (stats k).is_done.getD false = false) :
    ∀ fuel i, pollRunLoop stats fuel i = RunPollResult.running (i + fuel) := by
  intro fuel
  induction fuel with
  | zero => intro i; simp [pollRunLoop]
  | succ n ih =>
    intro i
    unfold pollRunLoop
    simp only [(h i).1, (h i).2, Bool.not_true, Bool.false_eq_true, if_false]
    rw [ih (i + 1)]
    congr 1
    omega

/-- With all responses 2xx, the run-progress loop stops at the first
response whose completion flag is truthy, after `k + 1` polls and `2 * k`
time-units of waiting. -/
theorem pollRunLoop_first_done (stats : Nat → StatsResp) (k : Nat)
    (hok : ∀ j, (stats j).ok = true)
    (hbefore : ∀ j, j < k → (stats j).is_done.getD false = false)
    (hk : (stats k).is_done.getD false = true) :
    ∀ fuel i, i ≤ k → k < i + fuel →
      pollRunLoop stats fuel i = RunPollResult.done (k + 1) (2 * k) := by
  intro fuel
  induction fuel with
  | zero => intro i h1 h2; omega
  | succ n ih =>
    intro i h1 h2
    unfold pollRunLoop
    simp only [hok i, Bool.not_true, Bool.false_eq_true, if_false]
    by_cases hik : i = k
    · subst hik
      rw [if_pos hk]
    · have hlt : i < k := by omega
      rw [if_neg (by rw [hbefore i hlt]; exact Bool.false_ne_true)]
      exact ih (i + 1) (by omega) (by omega)

/-- Concrete evaluation of the upload-status loop on the sequence
PENDING, PENDING, SUCCESS: three polls, 10 time-units of waiting. -/
theorem pollUploadLoop_pps :
    pollUploadLoop ppsStates 0 0 = UploadPollResult.success 3 10 := by
  unfold pollUploadLoop
  rw [dif_pos (by norm_num : (0 : Nat) < 60)]
  rw [show (ppsStates 0).ok = true from by decide,
    show isSuccessState (ppsStates 0) = false from by decide]
  simp only [Bool.not_true, Bool.false_eq_true, if_false]
  unfold pollUploadLoop
  rw [dif_pos (by norm_num : (0 + 5 : Nat) < 60)]
  rw [show (ppsStates (0 + 1)).ok = true from by decide,
    show isSuccessState (ppsStates (0 + 1)) = false from by decide]
  simp only [Bool.not_true, Bool.false_eq_true, if_false]
  unfold pollUploadLoop
  rw [dif_pos (by norm_num : (0 + 5 + 5 : Nat) < 60)]
  rw [show (ppsStates (0 + 1 + 1)).ok = true from by decide,
    show isSuccessState (ppsStates (0 + 1 + 1)) = true from by decide]
  simp only [Bool.not_true, Bool.false_eq_true, if_false, if_true]

/-! ## Claims -/

/-- Claim C2: with all polled responses 2xx, `poll_task_upload_status`
returns successfully if and only if some response within the 12 attempts
(5 time-unit interval under the 60 time-unit ceiling) has a state equal to
SUCCESS case-insensitively; on PENDING, PENDING, SUCCESS it returns after
exactly 3 polls and 10 time-units of waiting, a non-SUCCESS state being
simply re-polled. -/
theorem c2_upload_poll_success :
    (∀ states : Nat → UploadStatusResp, (∀ k, (states k).ok = true) →
      ((pollUploadLoop states 0 0).isSuccess = true ↔
        ∃ j, j < 12 ∧ isSuccessState (states j) = true)) ∧
    pollUploadLoop ppsStates 0 0 = UploadPollResult.success 3 10 := by
  constructor
  · intro states hok
    have h := pollUploadLoop_success_iff states hok 12 0 0 (by norm_num)
    simpa using h
  · exact pollUploadLoop_pps

/-- Witness for C2 at the concrete PENDING, PENDING, SUCCESS sequence. -/
theorem c2_upload_poll_success_witness :
    (pollUploadLoop ppsStates 0 0).isSuccess = true := by
  refine (c2_upload_poll_success.1 ppsStates ?_).mpr ⟨2, by norm_num, by decide⟩
  intro k
  unfold ppsStates
  split <;> rfl

/-- Claim C3: when the success condition never becomes true (every
response 2xx), the upload-status loop times out after exactly 12 polls and
60 time-units of waiting, and the export-status loop after exactly 24
polls and 120 time-units; at the ceiling the loop has already failed
rather than polling once more. -/
theorem c3_poll_timeouts :
    ∀ (states : Nat → UploadStatusResp) (details : Nat → DetailsResp),
      (∀ k, (states k).ok = true ∧ isSuccessState (states k) = false) →
      (∀ k, (details k).ok = true ∧ (details k).export_done.getD false = false) →
      pollUploadLoop states 0 0 = UploadPollResult.timeout 12 60 ∧
      pollExportLoop details 0 0 = ExportPollResult.timeout 24 120 := by
  intro states details h1 h2
  constructor
  · have h := pollUploadLoop_never states h1 12 0 0 (by norm_num)
    simpa using h
  · have h := pollExportLoop_never details h2 24 0 0 (by norm_num)
    simpa using h

/-- Witness for C3 at concrete never-successful sequences. -/
theorem c3_poll_timeouts_witness :
    pollUploadLoop pendingStates 0 0 = UploadPollResult.timeout 12 60 ∧
    pollExportLoop notDoneDetails 0 0 = ExportPollResult.timeout 24 120 :=
  c3_poll_timeouts pendingStates notDoneDetails
    (fun _ => ⟨rfl, rfl⟩) (fun _ => ⟨rfl, rfl⟩)

/-- Claim C4: with all stats responses 2xx, the run-progress loop depends
only on the completion flags (not the intermediate progress values),
terminates exactly at the first truthy completion flag, and has no
ceiling: while the flag stays false it is still polling whatever the fuel,
at 2 time-unit intervals (the `waited` field of the result). -/
theorem c4_run_progress :
    (∀ stats stats2 : Nat → StatsResp,
      (∀ k, (stats k).ok = (stats2 k).ok ∧ (stats k).is_done = (stats2 k).is_done) →
      ∀ fuel, pollRunLoop stats fuel 0 = pollRunLoop stats2 fuel 0) ∧
    (∀ (stats : Nat → StatsResp) (k : Nat),
      (∀ j, (stats j).ok = true) →
      (∀ j, j < k → (stats j).is_done.getD false = false) →
      (stats k).is_done.getD false = true →
      ∀ fuel, k < fuel →
        pollRunLoop stats fuel 0 = RunPollResult.done (k + 1) (2 * k)) ∧
    (∀ stats : Nat → StatsResp,
      (∀ j, (stats j).ok = true ∧ (stats j).is_done.getD false = false) →
      ∀ fuel, pollRunLoop stats fuel 0 = RunPollResult.running fuel) := by
  refine ⟨?_, ?_, ?_⟩
  · intro stats stats2 h fuel
    exact pollRunLoop_congr stats stats2 h fuel 0
  · intro stats k hok hb hk fuel hf
    exact pollRunLoop_first_done stats k hok hb hk fuel 0 (by omega) (by omega)
  · intro stats h fuel
    have hr := pollRunLoop_never stats h fuel 0
    simpa using hr

/-- Witness for C4: on the concrete stats sequence that completes at the
third poll, the loop stops after 3 polls and 4 time-units of waiting. -/
theorem c4_run_progress_witness :
    pollRunLoop demoStats 5 0 = RunPollResult.done 3 4 := by
  have h := c4_run_progress.2.1 demoStats 2
    (fun j => by unfold demoStats; split <;> rfl)
    (fun j hj => by unfold demoStats; rw [if_pos hj]; rfl)
    (by unfold demoStats; rw [if_neg (by omega : ¬ (2 : Nat) < 2)]; rfl)
    5 (by norm_num)
  simpa using h

/-- Claim C5: the configuration payload sent by `update_squid` carries
exactly the caller-supplied concurrency, max-pages and detail flag (the
latter nested as params.fill_results_details.annonce_details), and always
the fixed flags export_unique_results, no_line_breaks, to_complete and
run_notify; both implementations post exactly this payload. -/
theorem c5_update_payload :
    ∀ (c mp : Int) (d : Bool),
      (update_squid_payload c mp d).concurrency = c ∧
      (update_squid_payload c mp d).params.max_pages = mp ∧
      (update_squid_payload c mp d).params.fill_results_details.annonce_details = d ∧
      (update_squid_payload c mp d).export_unique_results = true ∧
      (update_squid_payload c mp d).no_line_breaks = true ∧
      (update_squid_payload c mp d).to_complete = false ∧
      (update_squid_payload c mp d).run_notify = "on_success" ∧
      ∀ (env : Env) (cfg : Config),
        (update_squid env cfg).calls =
          [Call.updateSquid
            (update_squid_payload cfg.concurrency cfg.max_pages cfg.annonce_details)] ∧
        (seldeep_update_squid env cfg).calls =
          [Call.updateSquid
            (update_squid_payload cfg.concurrency cfg.max_pages cfg.annonce_details)] := by
  intro c mp d
  refine ⟨rfl, rfl, rfl, rfl, rfl, rfl, rfl, ?_⟩
  intro env cfg
  constructor <;>
    (cases h : env.updateOk <;>
      simp [update_squid, seldeep_update_squid, h, StepResult.calls])

/-- Claim C6: the MIME-type derivation maps a file path whose extension is
.csv case-insensitively to text/csv, .tsv to text/tab-separated-values,
and anything else to a fatal input-validation error raised before the
upload request is issued (both implementations perform no remote call in
that case). -/
theorem c6_mime_type :
    ∀ p : String,
      (strLower (splitextExt p) = ".csv" → get_mime_type p = some "text/csv") ∧
      (strLower (splitextExt p) = ".tsv" →
        get_mime_type p = some "text/tab-separated-values") ∧
      (strLower (splitextExt p) ≠ ".csv" → strLower (splitextExt p) ≠ ".tsv" →
        get_mime_type p = none) ∧
      (∀ env : Env, get_mime_type p = none →
        upload_tasks_file env p =
          StepResult.fatal "Invalid file extension. Valid values are: csv or tsv." [] ∧
        (seldeep_upload_tasks_file env (some p)).calls = [] ∧
        ∃ m, seldeep_upload_tasks_file env (some p) = StepResult.fatal m []) := by
  intro p
  refine ⟨?_, ?_, ?_, ?_⟩
  · intro h
    simp [get_mime_type, h]
  · intro h
    simp [get_mime_type, h]
  · intro h1 h2
    simp [get_mime_type, h1, h2]
  · intro env h
    have hsel : upload_tasks_file env p =
        StepResult.fatal "Invalid file extension. Valid values are: csv or tsv." [] := by
      unfold upload_tasks_file
      rw [h]
    refine ⟨hsel, ?_⟩
    by_cases hf : strFalsy (some p) = true
    · simp [seldeep_upload_tasks_file, hf, StepResult.calls]
    · simp only [seldeep_upload_tasks_file, Bool.not_eq_true] at hf ⊢
      rw [hf]
      simp only [Bool.false_eq_true, if_false, Option.getD_some]
      rw [h]
      exact ⟨rfl, ⟨_, rfl⟩⟩

/-- Witness for C6 at concrete paths of each kind. -/
theorem c6_mime_type_witness :
    get_mime_type "search.CsV" = some "text/csv" ∧
    get_mime_type "tasks.TSV" = some "text/tab-separated-values" ∧
    get_mime_type "notes.txt" = none :=
  ⟨(c6_mime_type "search.CsV").1 (by decide),
   (c6_mime_type "tasks.TSV").2.1 (by decide),
   (c6_mime_type "notes.txt").2.2.1 (by decide) (by decide)⟩

/-! ## Shape lemmas for the pipeline steps -/

theorem create_squid_calls (env : Env) :
    (create_squid env).calls = [Call.createSquid] := by
  unfold create_squid
  split
  · rfl
  · split <;> rfl

theorem create_squid_ok (env : Env) {v : String} {cs : List Call}
    (h : create_squid env = .ok v cs) :
    cs = [Call.createSquid] ∧ env.create.ok = true ∧ strFalsy env.create.id = false := by
  unfold create_squid at h
  split at h
  · cases h
  · split at h
    · cases h
    · cases h
      refine ⟨rfl, ?_, ?_⟩ <;> simp_all

theorem update_squid_calls (env : Env) (cfg : Config) :
    (update_squid env cfg).calls =
      [Call.updateSquid (update_squid_payload cfg.concurrency cfg.max_pages cfg.annonce_details)] := by
  unfold update_squid
  split <;> rfl

theorem update_squid_ok (env : Env) (cfg : Config) {v : Unit} {cs : List Call}
    (h : update_squid env cfg = .ok v cs) :
    cs = [Call.updateSquid (update_squid_payload cfg.concurrency cfg.max_pages cfg.annonce_details)] ∧
      env.updateOk = true := by
  unfold update_squid at h
  split at h
  · cases h
  · cases h
    refine ⟨rfl, ?_⟩
    simp_all

theorem upload_tasks_file_ok (env : Env) (path : String) {v : String} {cs : List Call}
    (h : upload_tasks_file env path = .ok v cs) :
    cs = [Call.uploadTasks] ∧ env.upload.ok = true ∧ strFalsy env.upload.task_id = false := by
  unfold upload_tasks_file at h
  split at h
  · cases h
  · split at h
    · cases h
    · split at h
      · cases h
      · split at h
        · cases h
        · cases h
          refine ⟨rfl, ?_, ?_⟩ <;> simp_all

theorem upload_tasks_file_calls (env : Env) (path : String) :
    (upload_tasks_file env path).calls = [] ∨
      (upload_tasks_file env path).calls = [Call.uploadTasks] := by
  unfold upload_tasks_file
  split
  · exact Or.inl rfl
  · split
    · exact Or.inl rfl
    · split
      · exact Or.inr rfl
      · split
        · exact Or.inr rfl
        · exact Or.inr rfl

theorem poll_task_upload_status_calls (env : Env) :
    ∃ n, (poll_task_upload_status env).calls = List.replicate n Call.pollUploadStatus := by
  unfold poll_task_upload_status
  split <;> exact ⟨_, rfl⟩

theorem poll_task_upload_status_ok (env : Env) {v : Unit} {cs : List Call}
    (h : poll_task_upload_status env = .ok v cs) :
    (∃ n, cs = List.replicate n Call.pollUploadStatus) ∧
      (pollUploadLoop env.uploadStates 0 0).isSuccess = true := by
  unfold poll_task_upload_status at h
  split at h
  · cases h
    exact ⟨⟨_, rfl⟩, by rw [‹pollUploadLoop env.uploadStates 0 0 = _›]; rfl⟩
  · cases h
  · cases h

theorem delete_squid_calls (env : Env) :
    (delete_squid env).calls = [Call.deleteSquid] := by
  unfold delete_squid
  split <;> rfl

theorem start_run_calls (env : Env) :
    (start_run env).calls = [Call.startRun] := by
  unfold start_run
  split
  · rfl
  · split <;> rfl

theorem poll_run_progress_calls (env : Env) (fuel : Nat) :
    ∃ n, (poll_run_progress env fuel).calls = List.replicate n Call.pollRunStats := by
  unfold poll_run_progress
  split <;> exact ⟨_, rfl⟩

theorem poll_export_status_calls (env : Env) :
    ∃ n, (poll_export_status env).calls = List.replicate n Call.pollRunDetails := by
  unfold poll_export_status
  split <;> exact ⟨_, rfl⟩

theorem get_s3_url_calls (env : Env) :
    (get_s3_url env).calls = [Call.getDownloadUrl] := by
  unfold get_s3_url
  split
  · rfl
  · split <;> rfl

theorem download_csv_calls (env : Env) :
    (download_csv env).calls = [Call.downloadS3] := by
  unfold download_csv
  split <;> rfl

theorem download_csv_ok (env : Env) {v : Unit} {cs : List Call}
    (h : download_csv env = .ok v cs) :
    cs = [Call.downloadS3] ∧ env.s3FetchOk = true := by
  unfold download_csv at h
  split at h
  · cases h
  · cases h
    refine ⟨rfl, ?_⟩
    simp_all

/-! ## Shape lemmas for the sel.py pipeline segments -/

theorem selFromExport_spec (env : Env) :
    (∀ c ∈ (selFromExport env).1,
      c = Call.pollRunDetails ∨ c = Call.getDownloadUrl ∨ c = Call.downloadS3) ∧
    ((selFromExport env).2 = .exited .finished →
      Call.downloadS3 ∈ (selFromExport env).1 ∧ env.s3FetchOk = true) ∧
    (∀ o, (selFromExport env).2 = .exited o → (∃ m, o = .exitMsg m) ∨ o = .finished) := by
  obtain ⟨n1, hpe⟩ := poll_export_status_calls env
  have hs3 := get_s3_url_calls env
  have hdl := download_csv_calls env
  rcases h1 : poll_export_status env with ⟨v1, cs1⟩ | ⟨m1, cs1⟩ <;>
    rw [h1] at hpe <;> simp only [StepResult.calls] at hpe <;> subst hpe
  · rcases h2 : get_s3_url env with ⟨v2, cs2⟩ | ⟨m2, cs2⟩ <;>
      rw [h2] at hs3 <;> simp only [StepResult.calls] at hs3 <;> subst hs3
    · rcases h3 : download_csv env with ⟨v3, cs3⟩ | ⟨m3, cs3⟩ <;>
        rw [h3] at hdl <;> simp only [StepResult.calls] at hdl <;> subst hdl
      · have hok := download_csv_ok env h3
        simp only [selFromExport, h1, h2, h3]
        refine ⟨?_, ?_, ?_⟩
        · intro c hc
          simp only [List.mem_append, List.mem_replicate, List.mem_singleton] at hc
          tauto
        · intro _
          exact ⟨by simp, hok.2⟩
        · intro o ho
          cases ho
          exact Or.inr rfl
      · simp only [selFromExport, h1, h2, h3]
        refine ⟨?_, ?_, ?_⟩
        · intro c hc
          simp only [List.mem_append, List.mem_replicate, List.mem_singleton] at hc
          tauto
        · intro hfin
          cases hfin
        · intro o ho
          cases ho
          exact Or.inl ⟨_, rfl⟩
    · simp only [selFromExport, h1, h2]
      refine ⟨?_, ?_, ?_⟩
      · intro c hc
        simp only [List.mem_append, List.mem_replicate, List.mem_singleton] at hc
        tauto
      · intro hfin
        cases hfin
      · intro o ho
        cases ho
        exact Or.inl ⟨_, rfl⟩
  · simp only [selFromExport, h1]
    refine ⟨?_, ?_, ?_⟩
    · intro c hc
      simp only [List.mem_replicate] at hc
      tauto
    · intro hfin
      cases hfin
    · intro o ho
      cases ho
      exact Or.inl ⟨_, rfl⟩

theorem selFromRun_spec (env : Env) (fuel : Nat) :
    (∃ rest, (selFromRun env fuel).1 = Call.startRun :: rest) ∧
    (∀ c ∈ (selFromRun env fuel).1,
      c = Call.startRun ∨ c = Call.pollRunStats ∨ c = Call.pollRunDetails ∨
      c = Call.getDownloadUrl ∨ c = Call.downloadS3) ∧
    ((selFromRun env fuel).2 = .exited .finished →
      Call.downloadS3 ∈ (selFromRun env fuel).1 ∧ env.s3FetchOk = true) ∧
    (∀ o, (selFromRun env fuel).2 = .exited o → (∃ m, o = .exitMsg m) ∨ o = .finished) := by
  have hsr := start_run_calls env
  obtain ⟨n2, hpr⟩ := poll_run_progress_calls env fuel
  obtain ⟨hfeC, hfeF, hfeO⟩ := selFromExport_spec env
  rcases h1 : start_run env with ⟨v1, cs1⟩ | ⟨m1, cs1⟩ <;>
    rw [h1] at hsr <;> simp only [StepResult.calls] at hsr <;> subst hsr
  · rcases h2 : poll_run_progress env fuel with ⟨cs2⟩ | ⟨m2, cs2⟩ | ⟨cs2⟩ <;>
      rw [h2] at hpr <;> simp only [LoopStepResult.calls] at hpr <;> subst hpr
    · simp only [selFromRun, h1, h2]
      refine ⟨⟨List.replicate n2 Call.pollRunStats ++ (selFromExport env).1, by simp⟩,
        ?_, ?_, ?_⟩
      · refine List.forall_mem_append.mpr ⟨List.forall_mem_append.mpr ⟨?_, ?_⟩, ?_⟩
        · intro c hc
          rw [List.mem_singleton] at hc
          subst hc
          exact Or.inl rfl
        · intro c hc
          rw [List.eq_of_mem_replicate hc]
          exact Or.inr (Or.inl rfl)
        · intro c hc
          rcases hfeC c hc with g | g | g
          · exact Or.inr (Or.inr (Or.inl g))
          · exact Or.inr (Or.inr (Or.inr (Or.inl g)))
          · exact Or.inr (Or.inr (Or.inr (Or.inr g)))
      · intro hfin
        obtain ⟨hmem, hok⟩ := hfeF hfin
        exact ⟨by simp [hmem], hok⟩
      · exact hfeO
    · simp only [selFromRun, h1, h2]
      refine ⟨⟨List.replicate n2 Call.pollRunStats, by simp⟩, ?_, ?_, ?_⟩
      · refine List.forall_mem_append.mpr ⟨?_, ?_⟩
        · intro c hc
          rw [List.mem_singleton] at hc
          subst hc
          exact Or.inl rfl
        · intro c hc
          rw [List.eq_of_mem_replicate hc]
          exact Or.inr (Or.inl rfl)
      · intro hfin
        cases hfin
      · intro o ho
        cases ho
        exact Or.inl ⟨_, rfl⟩
    · simp only [selFromRun, h1, h2]
      refine ⟨⟨List.replicate n2 Call.pollRunStats, by simp⟩, ?_, ?_, ?_⟩
      · refine List.forall_mem_append.mpr ⟨?_, ?_⟩
        · intro c hc
          rw [List.mem_singleton] at hc
          subst hc
          exact Or.inl rfl
        · intro c hc
          rw [List.eq_of_mem_replicate hc]
          exact Or.inr (Or.inl rfl)
      · intro hfin
        cases hfin
      · intro o ho
        cases ho
  · simp only [selFromRun, h1]
    refine ⟨⟨_, rfl⟩, ?_, ?_, ?_⟩
    · intro c hc
      simp only [List.mem_singleton] at hc
      exact Or.inl hc
    · intro hfin
      cases hfin
    · intro o ho
      cases ho
      exact Or.inl ⟨_, rfl⟩

theorem selWithTasks_spec (env : Env) (fuel : Nat) (path : String) :
    (Call.deleteSquid ∉ (selWithTasks env fuel path).1) ∧
    (Call.startRun ∈ (selWithTasks env fuel path).1 →
      env.upload.ok = true ∧ strFalsy env.upload.task_id = false ∧
      (pollUploadLoop env.uploadStates 0 0).isSuccess = true ∧
      ∃ n rest, (selWithTasks env fuel path).1 =
        Call.uploadTasks ::
          (List.replicate n Call.pollUploadStatus ++ Call.startRun :: rest)) ∧
    ((selWithTasks env fuel path).2 = .exited .finished →
      Call.downloadS3 ∈ (selWithTasks env fuel path).1 ∧ env.s3FetchOk = true) ∧
    (∀ o, (selWithTasks env fuel path).2 = .exited o →
      (∃ m, o = .exitMsg m) ∨ o = .finished) := by
  obtain ⟨hfrS, hfrC, hfrF, hfrO⟩ := selFromRun_spec env fuel
  rcases h1 : upload_tasks_file env path with ⟨v1, cs1⟩ | ⟨m1, cs1⟩
  · obtain ⟨hcs1, hupok, htid⟩ := upload_tasks_file_ok env path h1
    subst hcs1
    rcases h2 : poll_task_upload_status env with ⟨v2, cs2⟩ | ⟨m2, cs2⟩
    · obtain ⟨⟨n2, hcs2⟩, hpollok⟩ := poll_task_upload_status_ok env h2
      subst hcs2
      obtain ⟨rest, hrest⟩ := hfrS
      simp only [selWithTasks, h1, h2]
      refine ⟨?_, ?_, ?_, ?_⟩
      · intro hmem
        rcases List.mem_append.mp hmem with h | h
        · rcases List.mem_append.mp h with h2 | h2
          · rw [List.mem_singleton] at h2
            cases h2
          · cases List.eq_of_mem_replicate h2
        · rcases hfrC _ h with g | g | g | g | g <;> cases g
      · intro _
        refine ⟨hupok, htid, hpollok, n2, rest, ?_⟩
        rw [hrest]
        simp
      · intro hfin
        obtain ⟨hmem, hok⟩ := hfrF hfin
        exact ⟨by simp [hmem], hok⟩
      · exact hfrO
    · obtain ⟨n2, hcs2⟩ := poll_task_upload_status_calls env
      rw [h2] at hcs2
      simp only [StepResult.calls] at hcs2
      subst hcs2
      simp only [selWithTasks, h1, h2]
      refine ⟨?_, ?_, ?_, ?_⟩
      · intro hmem
        simp [List.mem_replicate] at hmem
      · intro hmem
        simp [List.mem_replicate] at hmem
      · intro hfin
        cases hfin
      · intro o ho
        cases ho
        exact Or.inl ⟨_, rfl⟩
  · have hcs1 := upload_tasks_file_calls env path
    rw [h1] at hcs1
    simp only [StepResult.calls] at hcs1
    simp only [selWithTasks, h1]
    rcases hcs1 with hcs1 | hcs1 <;> subst hcs1
    · refine ⟨by simp, ?_, ?_, ?_⟩
      · intro hmem
        simp at hmem
      · intro hfin
        cases hfin
      · intro o ho
        cases ho
        exact Or.inl ⟨_, rfl⟩
    · refine ⟨by simp, ?_, ?_, ?_⟩
      · intro hmem
        simp at hmem
      · intro hfin
        cases hfin
      · intro o ho
        cases ho
        exact Or.inl ⟨_, rfl⟩

theorem selNoTasks_spec (env : Env) :
    (selNoTasks env).1 = [Call.deleteSquid] ∧
    (∃ m, (selNoTasks env).2 = .exited (.exitMsg m)) := by
  have hdc := delete_squid_calls env
  rcases h1 : delete_squid env with ⟨v1, cs1⟩ | ⟨m1, cs1⟩ <;>
    rw [h1] at hdc <;> simp only [StepResult.calls] at hdc <;> subst hdc
  · exact ⟨by simp [selNoTasks, h1],
      ⟨"No tasks file provided. Exiting.", by simp [selNoTasks, h1]⟩⟩
  · exact ⟨by simp [selNoTasks, h1], ⟨m1, by simp [selNoTasks, h1]⟩⟩

theorem create_squid_fatal (env : Env) {m : String} {cs : List Call}
    (h : create_squid env = .fatal m cs) :
    env.create.ok = false ∨ strFalsy env.create.id = true := by
  unfold create_squid at h
  split at h
  · left
    simp_all
  · split at h
    · right
      simp_all
    · cases h

theorem update_squid_fatal (env : Env) (cfg : Config) {m : String} {cs : List Call}
    (h : update_squid env cfg = .fatal m cs) : env.updateOk = false := by
  unfold update_squid at h
  split at h
  · simp_all
  · cases h

theorem selOrchestrate_spec (env : Env) (cfg : Config) (fuel : Nat) :
    (Call.startRun ∈ (selOrchestrate env cfg fuel).1 →
      strTruthy cfg.tasks_file = true ∧
      env.create.ok = true ∧ strFalsy env.create.id = false ∧ env.updateOk = true ∧
      env.upload.ok = true ∧ strFalsy env.upload.task_id = false ∧
      (pollUploadLoop env.uploadStates 0 0).isSuccess = true ∧
      Call.deleteSquid ∉ (selOrchestrate env cfg fuel).1 ∧
      ∃ n rest, (selOrchestrate env cfg fuel).1 =
        Call.createSquid ::
          Call.updateSquid
            (update_squid_payload cfg.concurrency cfg.max_pages cfg.annonce_details) ::
          Call.uploadTasks ::
          (List.replicate n Call.pollUploadStatus ++ Call.startRun :: rest)) ∧
    (strTruthy cfg.tasks_file = false →
      Call.startRun ∉ (selOrchestrate env cfg fuel).1 ∧
      (selOrchestrate env cfg fuel).2 ≠ .running ∧
      (env.create.ok = true → strFalsy env.create.id = false → env.updateOk = true →
        Call.deleteSquid ∈ (selOrchestrate env cfg fuel).1 ∧
        ∃ m, (selOrchestrate env cfg fuel).2 = .exited (.exitMsg m))) ∧
    (∀ o, (selOrchestrate env cfg fuel).2 = .exited o →
      (∃ m, o = .exitMsg m) ∨ o = .finished) ∧
    ((selOrchestrate env cfg fuel).2 = .exited .finished →
      Call.downloadS3 ∈ (selOrchestrate env cfg fuel).1 ∧ env.s3FetchOk = true ∧
      strTruthy cfg.tasks_file = true) := by
  rcases h1 : create_squid env with ⟨v1, cs1⟩ | ⟨m1, cs1⟩
  case _ =>
    obtain ⟨hcs1, hcok, hcid⟩ := create_squid_ok env h1
    subst hcs1
    rcases h2 : update_squid env cfg with ⟨v2, cs2⟩ | ⟨m2, cs2⟩
    case _ =>
      obtain ⟨hcs2, huok⟩ := update_squid_ok env cfg h2
      subst hcs2
      by_cases ht : strTruthy cfg.tasks_file = true
      · obtain ⟨hwD, hwS, hwF, hwO⟩ := selWithTasks_spec env fuel (cfg.tasks_file.getD "")
        have hTr : (selOrchestrate env cfg fuel).1 =
            Call.createSquid ::
              Call.updateSquid
                (update_squid_payload cfg.concurrency cfg.max_pages cfg.annonce_details) ::
              (selWithTasks env fuel (cfg.tasks_file.getD "")).1 := by
          simp [selOrchestrate, h1, h2, ht]
        have hRe : (selOrchestrate env cfg fuel).2 =
            (selWithTasks env fuel (cfg.tasks_file.getD "")).2 := by
          simp [selOrchestrate, h1, h2, ht]
        refine ⟨?_, ?_, ?_, ?_⟩
        · intro hmem
          rw [hTr] at hmem
          rcases List.mem_cons.mp hmem with h | h
          · cases h
          rcases List.mem_cons.mp h with h | h
          · cases h
          obtain ⟨hupok, htid, hpoll, n, rest, hshape⟩ := hwS h
          refine ⟨ht, hcok, hcid, huok, hupok, htid, hpoll, ?_, n, rest, ?_⟩
          · rw [hTr]
            intro hdel
            rcases List.mem_cons.mp hdel with g | g
            · cases g
            rcases List.mem_cons.mp g with g | g
            · cases g
            exact hwD g
          · rw [hTr, hshape]
        · intro hf
          rw [hf] at ht
          cases ht
        · intro o ho
          rw [hRe] at ho
          exact hwO o ho
        · intro hfin
          rw [hRe] at hfin
          obtain ⟨hmem, hok⟩ := hwF hfin
          refine ⟨?_, hok, ht⟩
          rw [hTr]
          exact List.mem_cons_of_mem _ (List.mem_cons_of_mem _ hmem)
      · have ht2 : strTruthy cfg.tasks_file = false := by
          cases hb : strTruthy cfg.tasks_file
          · rfl
          · exact absurd hb ht
        obtain ⟨hnT, m0, hnR⟩ := selNoTasks_spec env
        have hTr : (selOrchestrate env cfg fuel).1 =
            Call.createSquid ::
              Call.updateSquid
                (update_squid_payload cfg.concurrency cfg.max_pages cfg.annonce_details) ::
              (selNoTasks env).1 := by
          simp [selOrchestrate, h1, h2, ht2]
        have hRe : (selOrchestrate env cfg fuel).2 = (selNoTasks env).2 := by
          simp [selOrchestrate, h1, h2, ht2]
        refine ⟨?_, ?_, ?_, ?_⟩
        · intro hmem
          rw [hTr, hnT] at hmem
          rcases List.mem_cons.mp hmem with h | h
          · cases h
          rcases List.mem_cons.mp h with h | h
          · cases h
          rw [List.mem_singleton] at h
          cases h
        · intro _
          refine ⟨?_, ?_, ?_⟩
          · rw [hTr, hnT]
            intro hmem
            rcases List.mem_cons.mp hmem with h | h
            · cases h
            rcases List.mem_cons.mp h with h | h
            · cases h
            rw [List.mem_singleton] at h
            cases h
          · rw [hRe, hnR]
            intro hx
            cases hx
          · intro _ _ _
            refine ⟨?_, m0, by rw [hRe, hnR]⟩
            rw [hTr, hnT]
            exact List.mem_cons_of_mem _ (List.mem_cons_of_mem _ (List.mem_singleton.mpr rfl))
        · intro o ho
          rw [hRe, hnR] at ho
          cases ho
          exact Or.inl ⟨_, rfl⟩
        · intro hfin
          rw [hRe, hnR] at hfin
          cases hfin
    case _ =>
      have hup := update_squid_fatal env cfg h2
      have hcs2 := update_squid_calls env cfg
      rw [h2] at hcs2
      simp only [StepResult.calls] at hcs2
      subst hcs2
      have hTr : (selOrchestrate env cfg fuel).1 =
          [Call.createSquid,
            Call.updateSquid
              (update_squid_payload cfg.concurrency cfg.max_pages cfg.annonce_details)] := by
        simp [selOrchestrate, h1, h2]
      have hRe : (selOrchestrate env cfg fuel).2 = .exited (.exitMsg m2) := by
        simp [selOrchestrate, h1, h2]
      refine ⟨?_, ?_, ?_, ?_⟩
      · intro hmem
        rw [hTr] at hmem
        rcases List.mem_cons.mp hmem with h | h
        · cases h
        rcases List.mem_cons.mp h with h | h
        · cases h
        cases h
      · intro _
        refine ⟨?_, ?_, ?_⟩
        · rw [hTr]
          intro hmem
          rcases List.mem_cons.mp hmem with h | h
          · cases h
          rcases List.mem_cons.mp h with h | h
          · cases h
          cases h
        · rw [hRe]
          intro hx
          cases hx
        · intro _ _ hu
          rw [hu] at hup
          cases hup
      · intro o ho
        rw [hRe] at ho
        cases ho
        exact Or.inl ⟨_, rfl⟩
      · intro hfin
        rw [hRe] at hfin
        cases hfin
  case _ =>
    have hcf := create_squid_fatal env h1
    have hcs1 := create_squid_calls env
    rw [h1] at hcs1
    simp only [StepResult.calls] at hcs1
    subst hcs1
    have hTr : (selOrchestrate env cfg fuel).1 = [Call.createSquid] := by
      simp [selOrchestrate, h1]
    have hRe : (selOrchestrate env cfg fuel).2 = .exited (.exitMsg m1) := by
      simp [selOrchestrate, h1]
    refine ⟨?_, ?_, ?_, ?_⟩
    · intro hmem
      rw [hTr, List.mem_singleton] at hmem
      cases hmem
    · intro _
      refine ⟨?_, ?_, ?_⟩
      · rw [hTr, List.mem_singleton]
        intro hmem
        cases hmem
      · rw [hRe]
        intro hx
        cases hx
      · intro hc hid _
        rw [hc, hid] at hcf
        rcases hcf with g | g <;> cases g
    · intro o ho
      rw [hRe] at ho
      cases ho
      exact Or.inl ⟨_, rfl⟩
    · intro hfin
      rw [hRe] at hfin
      cases hfin

/-! ## Pairwise equivalence of the sel.py and seldeep.py steps

Each lemma states that the corresponding steps of the two files return the
same constructor, the same value and the same calls, differing at most in
the diagnostic text. -/

theorem eq_create (env : Env) :
    (∃ v cs, create_squid env = .ok v cs ∧ seldeep_create_squid env = .ok v cs) ∨
    (∃ m m2 cs, create_squid env = .fatal m cs ∧
      seldeep_create_squid env = .fatal m2 cs) := by
  unfold create_squid seldeep_create_squid
  by_cases h : (!env.create.ok) = true
  · rw [if_pos h, if_pos h]
    exact Or.inr ⟨_, _, _, rfl, rfl⟩
  · rw [if_neg h, if_neg h]
    by_cases h2 : strFalsy env.create.id = true
    · rw [if_pos h2, if_pos h2]
      exact Or.inr ⟨_, _, _, rfl, rfl⟩
    · rw [if_neg h2, if_neg h2]
      exact Or.inl ⟨_, _, rfl, rfl⟩

theorem seldeep_create_squid_ok_val (env : Env) {v : String} {cs : List Call}
    (h : seldeep_create_squid env = .ok v cs) : strFalsy (some v) = false := by
  unfold seldeep_create_squid at h
  split at h
  · cases h
  · split at h
    · cases h
    · rename_i hcond
      cases h
      have hne : strFalsy env.create.id = false := by
        cases hb : strFalsy env.create.id
        · rfl
        · exact absurd hb hcond
      rcases hid : env.create.id with _ | s
      · rw [hid] at hne
        simp [strFalsy] at hne
      · rw [hid] at hne
        simpa [strFalsy] using hne

theorem eq_update (env : Env) (cfg : Config) :
    (∃ v cs, update_squid env cfg = .ok v cs ∧ seldeep_update_squid env cfg = .ok v cs) ∨
    (∃ m m2 cs, update_squid env cfg = .fatal m cs ∧
      seldeep_update_squid env cfg = .fatal m2 cs) := by
  unfold update_squid seldeep_update_squid
  split
  · exact Or.inr ⟨_, _, _, rfl, rfl⟩
  · exact Or.inl ⟨_, _, rfl, rfl⟩

theorem eq_upload (env : Env) (tf : Option String) (h : strFalsy tf = false) :
    (∃ v cs, upload_tasks_file env (tf.getD "") = .ok v cs ∧
      seldeep_upload_tasks_file env tf = .ok v cs) ∨
    (∃ m m2 cs, upload_tasks_file env (tf.getD "") = .fatal m cs ∧
      seldeep_upload_tasks_file env tf = .fatal m2 cs) := by
  unfold upload_tasks_file seldeep_upload_tasks_file
  rw [h]
  simp only [Bool.false_eq_true, if_false]
  rcases hm : get_mime_type (tf.getD "") with _ | mt <;> simp only [hm]
  · exact Or.inr ⟨_, _, _, rfl, rfl⟩
  · by_cases h1 : (!env.fileOpenOk) = true
    · rw [if_pos h1, if_pos h1]
      exact Or.inr ⟨_, _, _, rfl, rfl⟩
    · rw [if_neg h1, if_neg h1]
      by_cases h2 : (!env.upload.ok) = true
      · rw [if_pos h2, if_pos h2]
        exact Or.inr ⟨_, _, _, rfl, rfl⟩
      · rw [if_neg h2, if_neg h2]
        by_cases h3 : strFalsy env.upload.task_id = true
        · rw [if_pos h3, if_pos h3]
          exact Or.inr ⟨_, _, _, rfl, rfl⟩
        · rw [if_neg h3, if_neg h3]
          exact Or.inl ⟨_, _, rfl, rfl⟩

theorem eq_poll_upload (env : Env) :
    (∃ v cs, poll_task_upload_status env = .ok v cs ∧
      seldeep_poll_task_upload_status env = .ok v cs) ∨
    (∃ m m2 cs, poll_task_upload_status env = .fatal m cs ∧
      seldeep_poll_task_upload_status env = .fatal m2 cs) := by
  unfold poll_task_upload_status seldeep_poll_task_upload_status
  rcases hp : pollUploadLoop env.uploadStates 0 0 with ⟨n, w⟩ | ⟨n⟩ | ⟨n, w⟩ <;>
    simp only [hp]
  · exact Or.inl ⟨_, _, rfl, rfl⟩
  · exact Or.inr ⟨_, _, _, rfl, rfl⟩
  · exact Or.inr ⟨_, _, _, rfl, rfl⟩

theorem eq_delete (env : Env) (sid : Option String) (h : strFalsy sid = false) :
    (∃ v cs, delete_squid env = .ok v cs ∧ seldeep_delete_squid env sid = .ok v cs) ∨
    (∃ m m2 cs, delete_squid env = .fatal m cs ∧
      seldeep_delete_squid env sid = .fatal m2 cs) := by
  unfold delete_squid seldeep_delete_squid
  rw [h]
  simp only [Bool.false_eq_true, if_false]
  by_cases h1 : (!env.deleteOk) = true
  · rw [if_pos h1, if_pos h1]
    exact Or.inr ⟨_, _, _, rfl, rfl⟩
  · rw [if_neg h1, if_neg h1]
    exact Or.inl ⟨_, _, rfl, rfl⟩

theorem eq_start (env : Env) :
    (∃ v cs, start_run env = .ok v cs ∧ seldeep_start_run env = .ok v cs) ∨
    (∃ m m2 cs, start_run env = .fatal m cs ∧ seldeep_start_run env = .fatal m2 cs) := by
  unfold start_run seldeep_start_run
  by_cases h : (!env.run.ok) = true
  · rw [if_pos h, if_pos h]
    exact Or.inr ⟨_, _, _, rfl, rfl⟩
  · rw [if_neg h, if_neg h]
    by_cases h2 : strFalsy env.run.id = true
    · rw [if_pos h2, if_pos h2]
      exact Or.inr ⟨_, _, _, rfl, rfl⟩
    · rw [if_neg h2, if_neg h2]
      exact Or.inl ⟨_, _, rfl, rfl⟩

theorem seldeep_start_run_ok_val (env : Env) {v : String} {cs : List Call}
    (h : seldeep_start_run env = .ok v cs) : strFalsy (some v) = false := by
  unfold seldeep_start_run at h
  split at h
  · cases h
  · split at h
    · cases h
    · rename_i hcond
      cases h
      have hne : strFalsy env.run.id = false := by
        cases hb : strFalsy env.run.id
        · rfl
        · exact absurd hb hcond
      rcases hid : env.run.id with _ | s
      · rw [hid] at hne
        simp [strFalsy] at hne
      · rw [hid] at hne
        simpa [strFalsy] using hne

theorem eq_poll_run (env : Env) (rid : Option String) (fuel : Nat)
    (h : strFalsy rid = false) :
    (∃ cs, poll_run_progress env fuel = .ok cs ∧
      seldeep_poll_run_progress env rid fuel = .ok cs) ∨
    (∃ m m2 cs, poll_run_progress env fuel = .fatal m cs ∧
      seldeep_poll_run_progress env rid fuel = .fatal m2 cs) ∨
    (∃ cs, poll_run_progress env fuel = .running cs ∧
      seldeep_poll_run_progress env rid fuel = .running cs) := by
  unfold poll_run_progress seldeep_poll_run_progress
  rw [h]
  simp only [Bool.false_eq_true, if_false]
  rcases hp : pollRunLoop env.stats fuel 0 with ⟨n, w⟩ | ⟨n⟩ | ⟨n⟩ <;> simp only [hp]
  · exact Or.inl ⟨_, rfl, rfl⟩
  · exact Or.inr (Or.inl ⟨_, _, _, rfl, rfl⟩)
  · exact Or.inr (Or.inr ⟨_, rfl, rfl⟩)

theorem eq_poll_export (env : Env) (rid : Option String) (h : strFalsy rid = false) :
    (∃ v cs, poll_export_status env = .ok v cs ∧
      seldeep_poll_export_status env rid = .ok v cs) ∨
    (∃ m m2 cs, poll_export_status env = .fatal m cs ∧
      seldeep_poll_export_status env rid = .fatal m2 cs) := by
  unfold poll_export_status seldeep_poll_export_status
  rw [h]
  simp only [Bool.false_eq_true, if_false]
  rcases hp : pollExportLoop env.details 0 0 with ⟨n, w⟩ | ⟨n⟩ | ⟨n, w⟩ <;>
    simp only [hp]
  · exact Or.inl ⟨_, _, rfl, rfl⟩
  · exact Or.inr ⟨_, _, _, rfl, rfl⟩
  · exact Or.inr ⟨_, _, _, rfl, rfl⟩

theorem eq_get_url (env : Env) (rid : Option String) (h : strFalsy rid = false) :
    (∃ v cs, get_s3_url env = .ok v cs ∧ seldeep_get_results_url env rid = .ok v cs) ∨
    (∃ m m2 cs, get_s3_url env = .fatal m cs ∧
      seldeep_get_results_url env rid = .fatal m2 cs) := by
  unfold get_s3_url seldeep_get_results_url
  rw [h]
  simp only [Bool.false_eq_true, if_false]
  by_cases h1 : (!env.download.ok) = true
  · rw [if_pos h1, if_pos h1]
    exact Or.inr ⟨_, _, _, rfl, rfl⟩
  · rw [if_neg h1, if_neg h1]
    by_cases h2 : strFalsy env.download.s3 = true
    · rw [if_pos h2, if_pos h2]
      exact Or.inr ⟨_, _, _, rfl, rfl⟩
    · rw [if_neg h2, if_neg h2]
      exact Or.inl ⟨_, _, rfl, rfl⟩

theorem eq_download (env : Env) :
    (∃ v cs, download_csv env = .ok v cs ∧ seldeep_download_results env = .ok v cs) ∨
    (∃ m m2 cs, download_csv env = .fatal m cs ∧
      seldeep_download_results env = .fatal m2 cs) := by
  unfold download_csv seldeep_download_results
  by_cases h : (!env.s3FetchOk) = true
  · rw [if_pos h, if_pos h]
    exact Or.inr ⟨_, _, _, rfl, rfl⟩
  · rw [if_neg h, if_neg h]
    exact Or.inl ⟨_, _, rfl, rfl⟩

/-! ## Equivalence of the two orchestrators, level by level -/

theorem eqFromExport (env : Env) (rid : Option String) (h : strFalsy rid = false) :
    (seldeepFromExport env rid).1 = (selFromExport env).1 ∧
    (seldeepFromExport env rid).2.kind = (selFromExport env).2.kind := by
  rcases eq_poll_export env rid h with ⟨v, cs, h1, h2⟩ | ⟨m, m2, cs, h1, h2⟩
  · rcases eq_get_url env rid h with ⟨v2, cs2, g1, g2⟩ | ⟨m, m2, cs2, g1, g2⟩
    · rcases eq_download env with ⟨v3, cs3, d1, d2⟩ | ⟨m, m2, cs3, d1, d2⟩
      · simp [seldeepFromExport, selFromExport, h1, h2, g1, g2, d1, d2, MainResult.kind]
      · simp [seldeepFromExport, selFromExport, h1, h2, g1, g2, d1, d2, MainResult.kind]
    · simp [seldeepFromExport, selFromExport, h1, h2, g1, g2, MainResult.kind]
  · simp [seldeepFromExport, selFromExport, h1, h2, MainResult.kind]

theorem eqFromRun (env : Env) (fuel : Nat) :
    (seldeepFromRun env fuel).1 = (selFromRun env fuel).1 ∧
    (seldeepFromRun env fuel).2.kind = (selFromRun env fuel).2.kind := by
  rcases eq_start env with ⟨v, cs, h1, h2⟩ | ⟨m, m2, cs, h1, h2⟩
  · have hrid := seldeep_start_run_ok_val env h2
    rcases eq_poll_run env (some v) fuel hrid with
      ⟨cs2, p1, p2⟩ | ⟨m, m2, cs2, p1, p2⟩ | ⟨cs2, p1, p2⟩
    · obtain ⟨hT, hK⟩ := eqFromExport env (some v) hrid
      simp [seldeepFromRun, selFromRun, h1, h2, p1, p2, hT, hK]
    · simp [seldeepFromRun, selFromRun, h1, h2, p1, p2, MainResult.kind]
    · simp [seldeepFromRun, selFromRun, h1, h2, p1, p2, MainResult.kind]
  · simp [seldeepFromRun, selFromRun, h1, h2, MainResult.kind]

theorem eqWithTasks (env : Env) (fuel : Nat) (tf : Option String)
    (h : strFalsy tf = false) :
    (seldeepWithTasks env fuel tf).1 = (selWithTasks env fuel (tf.getD "")).1 ∧
    (seldeepWithTasks env fuel tf).2.kind = (selWithTasks env fuel (tf.getD "")).2.kind := by
  rcases eq_upload env tf h with ⟨v, cs, h1, h2⟩ | ⟨m, m2, cs, h1, h2⟩
  · rcases eq_poll_upload env with ⟨v2, cs2, p1, p2⟩ | ⟨m, m2, cs2, p1, p2⟩
    · obtain ⟨hT, hK⟩ := eqFromRun env fuel
      simp [seldeepWithTasks, selWithTasks, h1, h2, p1, p2, hT, hK]
    · simp [seldeepWithTasks, selWithTasks, h1, h2, p1, p2, MainResult.kind]
  · simp [seldeepWithTasks, selWithTasks, h1, h2, MainResult.kind]

theorem eqNoTasks (env : Env) (sid : Option String) (h : strFalsy sid = false) :
    (seldeepNoTasks env sid).1 = (selNoTasks env).1 ∧
    (seldeepNoTasks env sid).2.kind = (selNoTasks env).2.kind := by
  rcases eq_delete env sid h with ⟨v, cs, h1, h2⟩ | ⟨m, m2, cs, h1, h2⟩ <;>
    simp [seldeepNoTasks, selNoTasks, h1, h2, MainResult.kind]

theorem eqOrchestrate (env : Env) (cfg : Config) (fuel : Nat) :
    (seldeepOrchestrate env cfg fuel).1 = (selOrchestrate env cfg fuel).1 ∧
    (seldeepOrchestrate env cfg fuel).2.kind = (selOrchestrate env cfg fuel).2.kind := by
  rcases eq_create env with ⟨v, cs, h1, h2⟩ | ⟨m, m2, cs, h1, h2⟩
  · have hsid := seldeep_create_squid_ok_val env h2
    rcases eq_update env cfg with ⟨v2, cs2, u1, u2⟩ | ⟨m, m2, cs2, u1, u2⟩
    · by_cases ht : strTruthy cfg.tasks_file = true
      · have hf : strFalsy cfg.tasks_file = false := by
          unfold strTruthy at ht
          cases hb : strFalsy cfg.tasks_file
          · rfl
          · rw [hb] at ht
            cases ht
        obtain ⟨hT, hK⟩ := eqWithTasks env fuel cfg.tasks_file hf
        simp [seldeepOrchestrate, selOrchestrate, h1, h2, u1, u2, ht, hT, hK]
      · have ht2 : strTruthy cfg.tasks_file = false := by
          cases hb : strTruthy cfg.tasks_file
          · rfl
          · exact absurd hb ht
        obtain ⟨hT, hK⟩ := eqNoTasks env (some v) hsid
        simp [seldeepOrchestrate, selOrchestrate, h1, h2, u1, u2, ht2, hT, hK]
    · simp [seldeepOrchestrate, selOrchestrate, h1, h2, u1, u2, MainResult.kind]
  · simp [seldeepOrchestrate, selOrchestrate, h1, h2, MainResult.kind]

/-! ## Concrete evaluations used by witnesses and counterexamples -/

theorem pollUploadLoop_allOk :
    pollUploadLoop envAllOk.uploadStates 0 0 = UploadPollResult.success 1 0 := by
  unfold pollUploadLoop
  rw [dif_pos (by norm_num : (0 : Nat) < 60),
    if_neg (by decide : ¬ (!(envAllOk.uploadStates 0).ok) = true),
    if_pos (by decide : isSuccessState (envAllOk.uploadStates 0) = true)]

theorem pollExportLoop_allOk :
    pollExportLoop envAllOk.details 0 0 = ExportPollResult.success 1 0 := by
  unfold pollExportLoop
  rw [dif_pos (by norm_num : (0 : Nat) < 120),
    if_neg (by decide : ¬ (!(envAllOk.details 0).ok) = true),
    if_pos (by decide : (envAllOk.details 0).export_done.getD false = true)]

/-- The all-successful environment runs the whole pipeline: one poll per
loop, ending in a successful download. -/
theorem selOrchestrate_allOk :
    selOrchestrate envAllOk cfgTasks 2 =
      ([Call.createSquid, Call.updateSquid (update_squid_payload 3 5 true),
        Call.uploadTasks, Call.pollUploadStatus, Call.startRun, Call.pollRunStats,
        Call.pollRunDetails, Call.getDownloadUrl, Call.downloadS3],
        .exited .finished) := by
  have hu : poll_task_upload_status envAllOk = .ok () [Call.pollUploadStatus] := by
    unfold poll_task_upload_status
    rw [pollUploadLoop_allOk]
    rfl
  have hex : poll_export_status envAllOk = .ok () [Call.pollRunDetails] := by
    unfold poll_export_status
    rw [pollExportLoop_allOk]
    rfl
  unfold selOrchestrate selWithTasks selFromRun selFromExport
  rw [hu, hex]
  rfl

/-- An interrupted `selMain` either behaves as the plain orchestration
(no interrupt, or an interrupt arriving after the process finished) or
terminates with the uncaught KeyboardInterrupt. -/
theorem selMain_cases (env : Env) (cfg : Config) (fuel : Nat) (intr : Option Nat) :
    selMain env cfg fuel intr = selOrchestrate env cfg fuel ∨
    (selMain env cfg fuel intr).2 = .exited .uncaughtInterrupt := by
  unfold selMain
  rcases intr with _ | n
  · exact Or.inl rfl
  · by_cases h : n < (selOrchestrate env cfg fuel).1.length
    · right
      simp [h]
    · left
      simp [h]

/-- Claim C1: `start_run` is reached only when create and update succeeded,
a task file is supplied (upload succeeded and its id is present) and the
task-upload poll returned success, with the calls issued in exactly that
order; with no task file, no run is ever started, the process terminates,
the squid is deleted once create and update succeeded, and on the
task-file path `delete_squid` is never invoked; the seldeep.py
orchestrator issues the same calls. -/
theorem c1_run_gating :
    ∀ (env : Env) (cfg : Config) (fuel : Nat),
      (Call.startRun ∈ (selOrchestrate env cfg fuel).1 →
        strTruthy cfg.tasks_file = true ∧
        env.create.ok = true ∧ strFalsy env.create.id = false ∧ env.updateOk = true ∧
        env.upload.ok = true ∧ strFalsy env.upload.task_id = false ∧
        (pollUploadLoop env.uploadStates 0 0).isSuccess = true ∧
        Call.deleteSquid ∉ (selOrchestrate env cfg fuel).1 ∧
        ∃ n rest, (selOrchestrate env cfg fuel).1 =
          Call.createSquid ::
            Call.updateSquid
              (update_squid_payload cfg.concurrency cfg.max_pages cfg.annonce_details) ::
            Call.uploadTasks ::
            (List.replicate n Call.pollUploadStatus ++ Call.startRun :: rest)) ∧
      (strTruthy cfg.tasks_file = false →
        Call.startRun ∉ (selOrchestrate env cfg fuel).1 ∧
        (selOrchestrate env cfg fuel).2 ≠ .running ∧
        (env.create.ok = true → strFalsy env.create.id = false → env.updateOk = true →
          Call.deleteSquid ∈ (selOrchestrate env cfg fuel).1 ∧
          ∃ m, (selOrchestrate env cfg fuel).2 = .exited (.exitMsg m))) ∧
      (seldeepOrchestrate env cfg fuel).1 = (selOrchestrate env cfg fuel).1 := by
  intro env cfg fuel
  obtain ⟨hA, hB, _, _⟩ := selOrchestrate_spec env cfg fuel
  exact ⟨hA, hB, (eqOrchestrate env cfg fuel).1⟩

/-- Witness for C1: in the all-successful run the start call happens with
no delete; in the no-task-file run no start call happens. -/
theorem c1_run_gating_witness :
    (strTruthy cfgTasks.tasks_file = true ∧
      Call.deleteSquid ∉ (selOrchestrate envAllOk cfgTasks 2).1) ∧
    Call.startRun ∉ (selOrchestrate envAllOk cfgNoTasks 0).1 := by
  constructor
  · have h := (c1_run_gating envAllOk cfgTasks 2).1
      (by rw [selOrchestrate_allOk]; decide)
    exact ⟨h.1, h.2.2.2.2.2.2.2.1⟩
  · exact ((c1_run_gating envAllOk cfgNoTasks 0).2.1 rfl).1

/-- Claim C7 (amended): the sel.py process exits with status zero exactly
when the whole pipeline finished, which happens only after a successful
download; the deliberate early-exit path terminates through
`sys.exit(message)`, i.e. with status 1, not distinguishable from a crash
by exit status. -/
theorem c7_exit_status :
    ∀ (env : Env) (cfg : Config) (fuel : Nat) (intr : Option Nat),
      (∀ o, (selMain env cfg fuel intr).2 = .exited o →
        ((exitCodeOf o = 0 ↔ o = .finished) ∧
          (o = .finished →
            Call.downloadS3 ∈ (selMain env cfg fuel intr).1 ∧ env.s3FetchOk = true))) ∧
      (strTruthy cfg.tasks_file = false → intr = none →
        env.create.ok = true → strFalsy env.create.id = false → env.updateOk = true →
        ∃ m, (selMain env cfg fuel intr).2 = .exited (.exitMsg m) ∧
          exitCodeOf (.exitMsg m) = 1) := by
  intro env cfg fuel intr
  obtain ⟨hA, hB, hO, hF⟩ := selOrchestrate_spec env cfg fuel
  constructor
  · intro o ho
    rcases selMain_cases env cfg fuel intr with heq | hu
    · rw [heq] at ho ⊢
      rcases hO o ho with ⟨m, hm⟩ | hfin
      · subst hm
        refine ⟨⟨fun hc => ?_, fun hf => by cases hf⟩, fun hf => by cases hf⟩
        simp [exitCodeOf] at hc
      · subst hfin
        exact ⟨⟨fun _ => rfl, fun _ => rfl⟩, fun _ => (hF ho).imp id (fun g => g.1)⟩
    · rw [hu] at ho
      cases ho
      refine ⟨⟨fun hc => ?_, fun hf => by cases hf⟩, fun hf => by cases hf⟩
      simp [exitCodeOf] at hc
  · intro ht hin hcok hcid huok
    subst hin
    obtain ⟨_, m, hm⟩ := (hB ht).2.2 hcok hcid huok
    exact ⟨m, hm, rfl⟩

/-- Witness for C7: the fully successful run exits with status zero after
the download call. -/
theorem c7_exit_status_witness :
    exitCodeOf Outcome.finished = 0 ∧
    Call.downloadS3 ∈ (selMain envAllOk cfgTasks 2 none).1 := by
  have h := (c7_exit_status envAllOk cfgTasks 2 none).1 Outcome.finished
    (by rw [show selMain envAllOk cfgTasks 2 none = selOrchestrate envAllOk cfgTasks 2
        from rfl, selOrchestrate_allOk])
  exact ⟨rfl, (h.2 rfl).1⟩

/-- Counterexample to C7 as stated: on the deliberate early-exit path the
process does not exit with status zero, nor with a status distinct from a
crash; it calls `sys.exit` with a message, status 1. -/
theorem c7_early_exit_counterexample :
    (selMain envAllOk cfgNoTasks 0 none).2 =
      .exited (.exitMsg "No tasks file provided. Exiting.") ∧
    exitCodeOf (.exitMsg "No tasks file provided. Exiting.") = 1 :=
  ⟨rfl, rfl⟩

/-- Claim C8 (amended): a 2xx response missing an identifier field (job
id, task upload id, run id, download URL) is fatal immediately, after that
single call and with no retry; but a 2xx body missing the upload `state`
or a completion flag is not fatal: it is treated as not-yet-done and
re-polled, until timeout in the bounded loops and forever in the progress
loop. -/
theorem c8_missing_field_handling :
    (∀ env : Env, env.create.ok = true → strFalsy env.create.id = true →
      create_squid env = .fatal "Squid ID not found!" [Call.createSquid]) ∧
    (∀ (env : Env) (path : String) (m : String), get_mime_type path = some m →
      env.fileOpenOk = true → env.upload.ok = true → strFalsy env.upload.task_id = true →
      upload_tasks_file env path =
        .fatal "Task upload ID not found in response!" [Call.uploadTasks]) ∧
    (∀ env : Env, env.run.ok = true → strFalsy env.run.id = true →
      start_run env = .fatal "Run ID not found!" [Call.startRun]) ∧
    (∀ env : Env, env.download.ok = true → strFalsy env.download.s3 = true →
      get_s3_url env = .fatal "S3 URL not found!" [Call.getDownloadUrl]) ∧
    (∀ states : Nat → UploadStatusResp,
      (∀ k, (states k).ok = true ∧ (states k).state = none) →
      pollUploadLoop states 0 0 = UploadPollResult.timeout 12 60) ∧
    (∀ details : Nat → DetailsResp,
      (∀ k, (details k).ok = true ∧ (details k).export_done = none) →
      pollExportLoop details 0 0 = ExportPollResult.timeout 24 120) ∧
    (∀ (stats : Nat → StatsResp) (fuel : Nat),
      (∀ k, (stats k).ok = true ∧ (stats k).is_done = none) →
      pollRunLoop stats fuel 0 = RunPollResult.running fuel) := by
  refine ⟨?_, ?_, ?_, ?_, ?_, ?_, ?_⟩
  · intro env hok hid
    simp [create_squid, hok, hid]
  · intro env path m hm hopen hupok htid
    unfold upload_tasks_file
    rw [hm]
    simp [hopen, hupok, htid]
  · intro env hok hid
    simp [start_run, hok, hid]
  · intro env hok hid
    simp [get_s3_url, hok, hid]
  · intro states h
    have hnever := pollUploadLoop_never states
      (fun k => ⟨(h k).1, by unfold isSuccessState; rw [(h k).2]; decide⟩)
      12 0 0 (by norm_num)
    simpa using hnever
  · intro details h
    have hnever := pollExportLoop_never details
      (fun k => ⟨(h k).1, by rw [(h k).2]; rfl⟩) 24 0 0 (by norm_num)
    simpa using hnever
  · intro stats fuel h
    have hnever := pollRunLoop_never stats
      (fun k => ⟨(h k).1, by rw [(h k).2]; rfl⟩) fuel 0
    simpa using hnever

/-- Witness for C8 at a concrete 2xx create response without an id. -/
theorem c8_missing_field_handling_witness :
    create_squid envNoId = .fatal "Squid ID not found!" [Call.createSquid] :=
  c8_missing_field_handling.1 envNoId rfl rfl

/-- Counterexample to C8 as stated: every poll returns 2xx with the
`state` field missing, yet the loop is not fatal immediately: it performs
12 polls (re-polling, not a single-call failure) and then times out. -/
theorem c8_missing_state_counterexample :
    pollUploadLoop missingStateSeq 0 0 = UploadPollResult.timeout 12 60 ∧
    (pollUploadLoop missingStateSeq 0 0).polls ≠ 1 := by
  have h : pollUploadLoop missingStateSeq 0 0 = UploadPollResult.timeout 12 60 := by
    have hnever := pollUploadLoop_never missingStateSeq
      (fun _ => ⟨rfl, rfl⟩) 12 0 0 (by norm_num)
    simpa using hnever
  refine ⟨h, ?_⟩
  rw [h]
  decide

/-- Claim C9 (amended): with no interrupt the two orchestrators issue the
same remote calls and terminate in the same behavioral class (they differ
only in diagnostic wording); under an interrupt they differ, since only
seldeep.py installs a handler. -/
theorem c9_behavioral_equivalence :
    ∀ (env : Env) (cfg : Config) (fuel : Nat),
      (seldeepOrchestrate env cfg fuel).1 = (selOrchestrate env cfg fuel).1 ∧
      (seldeepOrchestrate env cfg fuel).2.kind = (selOrchestrate env cfg fuel).2.kind ∧
      (seldeepMain env cfg fuel none).1 = (selMain env cfg fuel none).1 ∧
      (seldeepMain env cfg fuel none).2.kind = (selMain env cfg fuel none).2.kind := by
  intro env cfg fuel
  obtain ⟨hT, hK⟩ := eqOrchestrate env cfg fuel
  exact ⟨hT, hK, hT, hK⟩

/-- Counterexample to C9 as stated: when an interrupt arrives during the
first remote call, sel.py terminates with an uncaught KeyboardInterrupt
while seldeep.py exits cleanly with status 1 — different termination
outcomes on the same inputs and events. -/
theorem c9_interrupt_counterexample :
    (selMain envFailCreate cfgTasks 0 (some 0)).2 ≠
      (seldeepMain envFailCreate cfgTasks 0 (some 0)).2 ∧
    (selMain envFailCreate cfgTasks 0 (some 0)).2 = .exited .uncaughtInterrupt ∧
    (seldeepMain envFailCreate cfgTasks 0 (some 0)).2 = .exited (.exitCode 1) := by
  refine ⟨?_, rfl, rfl⟩
  decide

/-- Claim C10 (amended): seldeep.py catches an interrupt arriving during
any step at the top level and exits with status 1 (after printing its
cancellation message); sel.py does not catch it. -/
theorem c10_interrupt_handling :
    ∀ (env : Env) (cfg : Config) (fuel : Nat) (n : Nat),
      n < (seldeepOrchestrate env cfg fuel).1.length →
      (seldeepMain env cfg fuel (some n)).2 = .exited (.exitCode 1) ∧
      exitCodeOf (.exitCode 1) ≠ 0 := by
  intro env cfg fuel n h
  refine ⟨?_, by decide⟩
  unfold seldeepMain
  simp [h]

/-- Witness for C10 at a concrete interrupted execution. -/
theorem c10_interrupt_handling_witness :
    (seldeepMain envFailCreate cfgTasks 0 (some 0)).2 = .exited (.exitCode 1) :=
  (c10_interrupt_handling envFailCreate cfgTasks 0 0 (by decide)).1

/-- Counterexample to C10 as stated: sel.py has no interrupt handler, so
the same interrupted execution terminates with an uncaught
KeyboardInterrupt instead of a clean cancellation exit. -/
theorem c10_sel_uncaught_counterexample :
    (selMain envFailCreate cfgTasks 0 (some 0)).2 = .exited .uncaughtInterrupt ∧
    Outcome.uncaughtInterrupt ≠ .exitCode 1 := by
  refine ⟨rfl, ?_⟩
  decide

end Seloger
